import Mathlib

/-!
# lircd backend (`daemons/lircd-backend-std.cpp`)

A shallow embedding of the repeat-session handling (`dosigalrm`,
`schedule_repeat_timer`), the configuration reload (`config`,
`free_old_remotes`), the message broadcast (`input_message`), the timeout
computation of the wait loop (`mywaitfordata`) and the signal handlers installed
by `main`.

Memory is explicit.  A pointer is an address (`Nat`), a nullable pointer is an
`Option Nat`, and the two heaps `remote_at` and `ncode_at` map an address to
the object stored there (`none` once the object has been freed).  A linked
list of profiles (`struct ir_remote*` chained through `next`) is the list of
the addresses of its nodes; the empty list is the `NULL` list.  An operation
that dereferences a null or freed pointer has no defined result and is
modelled by `none`.

Calls that leave the file (the driver, the IR library, the clock, the client
socket) are recorded in the output trace `State.out`; their return values are
supplied by an environment record.  Logging is not recorded.
-/

namespace Lircd

/-! ## Machine integers -/

/-- Value of an integer once stored in a 32-bit signed `int` (the type `lirc_t`). -/
def wrap32 (x : Int) : Int := (x + 2147483648) % 4294967296 - 2147483648

/-- Value of an integer once stored in a 64-bit `unsigned long`. -/
def wrapU64 (x : Int) : Int := x % 18446744073709551616

/-- Value of an integer once stored in a 32-bit unsigned `__u32`. -/
def wrapU32 (x : Int) : Int := x % 4294967296

/-! ## Time values -/

/-- The C `struct timeval`. -/
structure timeval where
  tv_sec : Int
  tv_usec : Int
deriving DecidableEq, Repr

/-- The C `struct timespec`. -/
structure timespec where
  tv_sec : Int
  tv_nsec : Int
deriving DecidableEq, Repr

/-- The C `struct itimerval`. -/
structure itimerval where
  it_interval : timeval
  it_value : timeval
deriving DecidableEq, Repr

/-- The macro `timerisset`. -/
def timerisset (t : timeval) : Bool := t.tv_sec != 0 || t.tv_usec != 0

/-- The macro `timerclear`. -/
def timerclear : timeval := { tv_sec := 0, tv_usec := 0 }

/-- The macro `timercmp(a, b, >)`. -/
def timercmp_gt (a b : timeval) : Bool :=
  if a.tv_sec = b.tv_sec then decide (a.tv_usec > b.tv_usec) else decide (a.tv_sec > b.tv_sec)

/-- The macro `timersub` as defined at the top of the file. -/
def timersub (a b : timeval) : timeval :=
  let sec := a.tv_sec - b.tv_sec
  let usec := a.tv_usec - b.tv_usec
  if usec < 0 then { tv_sec := sec - 1, tv_usec := usec + 1000000 }
  else { tv_sec := sec, tv_usec := usec }

/-! ## Profiles, buttons and the driver -/

/-- One further frame of a button (`struct ir_code_node`); only its `next`
pointer is read by this file. -/
structure ir_code_node where
  next : Option Nat
deriving DecidableEq, Repr

/-- A button (`struct ir_ncode`): its name, the pointer to its further frames and
the node `transmit_state` points to (`none` for a null pointer). -/
structure ir_ncode where
  name : String
  next : Option Nat
  transmit_state : Option ir_code_node
deriving DecidableEq, Repr

/-- A profile (`struct ir_remote`), with the fields this file reads or writes.
`codes` lists the addresses of its buttons.  The declaration of the structure is
not part of this file; `repeat_countdown` is decremented on the integers. -/
structure ir_remote where
  name : String
  codes : List Nat
  repeat_countdown : Int
  last_code : Option Nat
  reps : Int
  toggle_bit_mask_state : Int
  min_remaining_gap : Int
  max_remaining_gap : Int
  last_send : timeval
deriving DecidableEq, Repr

/-- The feature bits of `curr_driver->features` tested by this file. -/
inductive Feature
  | LIRC_CAN_SET_REC_CARRIER
  | LIRC_CAN_SET_REC_CARRIER_RANGE
  | LIRC_CAN_SET_REC_TIMEOUT
  | LIRC_CAN_SET_REC_FILTER
deriving DecidableEq, Repr

/-- The requests passed to `curr_driver->drvctl_func`. -/
inductive DrvCmd
  | LIRC_SETUP_START
  | LIRC_SETUP_END
  | LIRC_SET_REC_CARRIER_RANGE
  | LIRC_SET_REC_CARRIER
  | LIRC_GET_MIN_TIMEOUT
  | LIRC_GET_MAX_TIMEOUT
  | LIRC_SET_REC_TIMEOUT
  | LIRC_SET_REC_TIMEOUT_REPORTS
  | LIRC_GET_MIN_FILTER_PULSE
  | LIRC_GET_MAX_FILTER_PULSE
  | LIRC_GET_MIN_FILTER_SPACE
  | LIRC_GET_MAX_FILTER_SPACE
  | LIRC_SET_REC_FILTER_PULSE
  | LIRC_SET_REC_FILTER_SPACE
  | LIRC_SET_REC_FILTER
deriving DecidableEq, Repr

/-- The fields of `curr_driver` read by this file.  `features f` tells whether
the bit `f` is set; the four booleans tell whether the function pointer of that
name is non-null. -/
structure driver where
  fd : Int
  rec_mode : Int
  features : Feature → Bool
  drvctl_func : Bool
  init_func : Bool
  deinit_func : Bool
  close_func : Bool

/-! ## Output trace -/

/-- A call that leaves the file, in the order performed. -/
inductive Event
  | send_error (fd : Int) (message : Option String) (text : String)
  | send_success (fd : Int) (message : Option String)
  | send_ir_ncode (remote : Nat) (code : Nat) (delay : Int)
  | setitimer (value : itimerval)
  | deinit_func
  | drvctl_func (cmd : DrvCmd) (arg : Int)
  | write_socket (fd : Int) (message : String)
  | setitimer_save
  | setitimer_restore
  | free_config (remotes : List Nat)
  | signal (sig : Int) (ignore : Bool)
  | shutdown (fd : Int) (how : Int)
  | close (fd : Int)
  | pidfile_close
  | close_func
  | exit (status : Int)
  | raise (sig : Int)
deriving DecidableEq, Repr

/-- Recognises a call of `send_ir_ncode`. -/
def Event.isSend : Event → Bool
  | .send_ir_ncode _ _ _ => true
  | _ => false

/-- Recognises a call of `setitimer`. -/
def Event.isSetitimer : Event → Bool
  | .setitimer _ => true
  | _ => false

/-- Recognises a call of `send_success`. -/
def Event.isSuccess : Event → Bool
  | .send_success _ _ => true
  | _ => false

/-- Recognises a call of `send_error`. -/
def Event.isError : Event → Bool
  | .send_error _ _ _ => true
  | _ => false

/-- Recognises a call of the driver's `deinit_func`. -/
def Event.isDeinit : Event → Bool
  | .deinit_func => true
  | _ => false

/-- Recognises a call of the driver's `drvctl_func`. -/
def Event.isDrvctl : Event → Bool
  | .drvctl_func _ _ => true
  | _ => false

/-! ## Daemon state -/

/-- The seven static variables `setup_min_freq`, ..., `setup_max_space` that hold
the timing envelope derived from the current profiles. -/
structure Setup where
  setup_min_freq : Int
  setup_max_freq : Int
  setup_max_gap : Int
  setup_min_pulse : Int
  setup_min_space : Int
  setup_max_pulse : Int
  setup_max_space : Int
deriving DecidableEq, Repr

/-- The global variables of the daemon (the timing envelope grouped in `hw`), the
library state it reaches through `get_remotes`, `get_decoding`, `get_events_fd`,
`last_remote`, `repeat_remote` and `repeat_code`, the two heaps, and the output
trace. -/
structure State where
  remotes : List Nat
  free_remotes : List Nat
  decoding : Option Nat
  last_remote : Option Nat
  repeat_remote : Option Nat
  repeat_code : Option Nat
  repeat_fd : Int
  repeat_message : Option String
  userelease : Int
  is_open : Bool
  configfile : Option String
  term : Int
  hup : Int
  alrm : Int
  termsig : Int
  sockfd : Int
  do_shutdown : Int
  hw : Setup
  events_fd : Int
  curr_driver : driver
  remote_at : Nat → Option ir_remote
  ncode_at : Nat → Option ir_ncode
  out : List Event

/-- Appends one call to the output trace. -/
def State.emit (s : State) (e : Event) : State := { s with out := s.out ++ [e] }

/-- The head pointer of a linked list of profiles (`none` for `NULL`). -/
def head_ptr (l : List Nat) : Option Nat := l.head?

/-- The function `use_hw`. -/
def use_hw (s : State) : Bool := s.is_open || s.repeat_remote != none

/-- The statement `if (!use_hw() && curr_driver->deinit_func) curr_driver->deinit_func();`
 that ends both exits of `dosigalrm`. -/
def deinit_unless_used (s : State) : State :=
  if !use_hw s && s.curr_driver.deinit_func then s.emit .deinit_func else s

/-! ## The repeat timer -/

/-- The transmission state that `send_ir_ncode` leaves in the profile it is handed:
the fields that this file carries over from an old profile to a new one on a
reload. -/
structure SendEffect where
  reps : Int
  toggle_bit_mask_state : Int
  min_remaining_gap : Int
  max_remaining_gap : Int
  last_send : timeval
deriving DecidableEq, Repr

/-- What one alarm firing obtains from outside the file: whether
`send_ir_ncode` returned non-zero and what it left in the profile, the two
readings of the monotonic clock (`before_send` in `dosigalrm`, `current` in
`schedule_repeat_timer`) and the value of `send_buffer_sum()`. -/
structure AlarmEnv where
  send_ok : Bool
  sent : SendEffect
  before_send : timespec
  send_buffer_sum : Int
  current : timespec
deriving DecidableEq, Repr

/-- Modelled from the spec: the profile after the call
`send_ir_ncode(repeat_remote, repeat_code, 1)`.  The routine is outside the file; it
receives the profile by pointer and writes its transmission state.  The fields
`repeat_countdown` and `last_code`, which `dosigalrm` itself maintains around the
call, and the name and buttons are taken as left in place: the spec counts one
retransmission per unit of the countdown. -/
def sent_profile (e : AlarmEnv) (remote : ir_remote) : ir_remote :=
  { remote with
    reps := e.sent.reps,
    toggle_bit_mask_state := e.sent.toggle_bit_mask_state,
    min_remaining_gap := e.sent.min_remaining_gap,
    max_remaining_gap := e.sent.max_remaining_gap,
    last_send := e.sent.last_send }

/-- The right-hand side `1000000 * secs + (current.tv_nsec - last->tv_nsec) / 1000`
of `schedule_repeat_timer` on unbounded integers: the elapsed microseconds between
the two clock readings. -/
def elapsed_usecs (current last : timespec) : Int :=
  1000000 * (current.tv_sec - last.tv_sec) + Int.tdiv (current.tv_nsec - last.tv_nsec) 1000

/-- The local `diff` of `schedule_repeat_timer`: the elapsed microseconds,
computed in `unsigned long` and stored in a `lirc_t`. -/
def elapsed_diff (current last : timespec) : Int :=
  let secs := wrapU64 (current.tv_sec - last.tv_sec)
  wrap32 (wrapU64 (1000000 * secs + Int.tdiv (current.tv_nsec - last.tv_nsec) 1000))

/-- The local `usecs` of `schedule_repeat_timer` at the call of `setitimer`. -/
def repeat_timer_usecs (send_buffer_sum min_remaining_gap : Int) (current last : timespec) : Int :=
  let gap := wrap32 (send_buffer_sum + min_remaining_gap)
  let diff := elapsed_diff current last
  let usecs := if diff < gap then wrap32 (gap - diff) else 0
  if usecs < 10 then 10 else usecs

/-- The function `schedule_repeat_timer`. -/
def schedule_repeat_timer (s : State) (e : AlarmEnv) (last : timespec) : Option State := do
  let rr ← s.repeat_remote
  let remote ← s.remote_at rr
  let usecs := repeat_timer_usecs e.send_buffer_sum remote.min_remaining_gap e.current last
  let repeat_timer : itimerval :=
    { it_value := { tv_sec := 0, tv_usec := usecs }, it_interval := { tv_sec := 0, tv_usec := 0 } }
  pure (s.emit (.setitimer repeat_timer))

/-- The function `dosigalrm`.  The library routine `send_ir_ncode` is
outside the file: its call is recorded, and its return value and what it writes
into the profile come from the environment; the countdown tested after the call
and the gap used to re-arm the timer are read from the profile as the call left
it. -/
def dosigalrm (s : State) (e : AlarmEnv) : Option State := do
  let rr ← s.repeat_remote
  let remote ← s.remote_at rr
  if remote.last_code ≠ s.repeat_code then
    let s1 := if s.repeat_fd ≠ -1 then
        s.emit (.send_error s.repeat_fd s.repeat_message "repeating interrupted\n")
      else s
    let s2 := { s1 with repeat_remote := none, repeat_code := none, repeat_fd := -1 }
    let s3 := if s2.repeat_message ≠ none then { s2 with repeat_message := none } else s2
    pure (deinit_unless_used s3)
  else
    let rc ← s.repeat_code
    let code ← s.ncode_at rc
    let last_frame : Bool := code.next == none
      || (match code.transmit_state with
          | some node => node.next == none
          | none => false)
    let remote1 := if last_frame then
        { remote with repeat_countdown := remote.repeat_countdown - 1 }
      else remote
    let remote2 := sent_profile e remote1
    let s1 := { s with remote_at := Function.update s.remote_at rr (some remote2) }
    let s2 := s1.emit (.send_ir_ncode rr rc 1)
    if e.send_ok && decide (remote2.repeat_countdown > 0) then
      schedule_repeat_timer s2 e e.before_send
    else
      let s3 := { s2 with repeat_remote := none, repeat_code := none }
      let s4 := if s3.repeat_fd ≠ -1 then
          { (s3.emit (.send_success s3.repeat_fd s3.repeat_message)) with
            repeat_message := none, repeat_fd := -1 }
        else s3
      pure (deinit_unless_used s4)

/-- Successive alarm firings, one per environment of the list. -/
def dosigalrm_run : List AlarmEnv → State → Option State
  | [], s => some s
  | e :: es, s => (dosigalrm s e).bind (dosigalrm_run es)

/-! ## Broadcasting -/

/-- The text of a notification with the profile and button names that go with
it, as produced by the release tracker. -/
structure Message where
  message : String
  remote_name : String
  button_name : String
deriving DecidableEq, Repr

/-- The function `broadcast_message`. -/
def broadcast_message (s : State) (message : String) : State :=
  if s.events_fd ≥ 0 then s.emit (.write_socket s.events_fd message) else s

/-- The function `input_message`.  The first argument lists what the successive
calls of `check_release_event` return (`none` for `NULL`); once the list is
used up the tracker has nothing pending and returns `NULL`. -/
def input_message : List (Option Message) → State → (message remote_name button_name : String) →
    (reps release : Int) → State
  | some m :: checks, s, message, _, _, _, release =>
    let s1 := input_message checks s m.message m.remote_name m.button_name 0 1
    if release == 0 || s1.userelease != 0 then broadcast_message s1 message else s1
  | _, s, message, _, _, _, release =>
    if release == 0 || s.userelease != 0 then broadcast_message s message else s

/-- The release events that the successive calls of `check_release_event` hand
out before the first `NULL`. -/
def pending_releases : List (Option Message) → List Message
  | some m :: checks => m :: pending_releases checks
  | _ => []

/-! ## Hardware setup -/

/-- What a reload obtains from outside the file: the two built-in paths and the
default carrier, the outcome of `fopen` per path, the result of `read_config`
per path (`none` for the error sentinel `(void*)-1`), the results of
`get_frequency_range` and `get_filter_parameters` on the new profiles, and the
driver's answer to each `drvctl_func` request (`none` for `-1`, otherwise the
value stored through the argument pointer). -/
structure ConfigEnv where
  LIRCDCFGFILE : String
  LIRCDOLDCFGFILE : String
  DEFAULT_FREQ : Int
  fopen : String → Option Bool
  read_config : String → Option (List Nat × List (Nat × ir_remote) × List (Nat × ir_ncode))
  get_frequency_range : Int × Int
  get_filter_parameters : Int × Int × Int × Int × Int
  drvctl : DrvCmd → Int → Option Int

/-- The hardware setup routines work on the timing envelope and append the
requests they pass to `curr_driver->drvctl_func`; the value such a request
returns is `env.drvctl cmd arg`. -/
structure SetupState where
  hw : Setup
  calls : List Event

/-- Records one call of `curr_driver->drvctl_func(cmd, &arg)`. -/
def drvctl_func (s : SetupState) (cmd : DrvCmd) (arg : Int) : SetupState :=
  { s with calls := s.calls ++ [.drvctl_func cmd arg] }

/-- The function `setup_frequency`; the first component is its return value. -/
def setup_frequency (d : driver) (env : ConfigEnv) (s : SetupState) : Int × SetupState :=
  if !d.features .LIRC_CAN_SET_REC_CARRIER then (1, s)
  else
    let s1 : SetupState := if s.hw.setup_min_freq == 0 || s.hw.setup_max_freq == 0 then
        { s with hw := { s.hw with
            setup_min_freq := env.DEFAULT_FREQ, setup_max_freq := env.DEFAULT_FREQ } }
      else s
    if d.features .LIRC_CAN_SET_REC_CARRIER_RANGE
        && s1.hw.setup_min_freq != s1.hw.setup_max_freq then
      let s2 := drvctl_func s1 .LIRC_SET_REC_CARRIER_RANGE s1.hw.setup_min_freq
      match env.drvctl .LIRC_SET_REC_CARRIER_RANGE s1.hw.setup_min_freq with
      | none => (0, s2)
      | some _ =>
        let freq := s2.hw.setup_max_freq
        let s3 := drvctl_func s2 .LIRC_SET_REC_CARRIER freq
        match env.drvctl .LIRC_SET_REC_CARRIER freq with
        | none => (0, s3)
        | some _ => (1, s3)
    else
      let freq := wrapU32 (s1.hw.setup_min_freq + s1.hw.setup_max_freq) / 2
      let s2 := drvctl_func s1 .LIRC_SET_REC_CARRIER freq
      match env.drvctl .LIRC_SET_REC_CARRIER freq with
      | none => (0, s2)
      | some _ => (1, s2)

/-- The function `setup_timeout`; the first component is its return value. -/
def setup_timeout (d : driver) (env : ConfigEnv) (s : SetupState) : Int × SetupState :=
  if !d.features .LIRC_CAN_SET_REC_TIMEOUT then (1, s)
  else if s.hw.setup_max_space == 0 then (1, s)
  else
    let s1 := drvctl_func s .LIRC_GET_MIN_TIMEOUT 0
    match env.drvctl .LIRC_GET_MIN_TIMEOUT 0 with
    | none => (0, s1)
    | some min_timeout =>
      let s2 := drvctl_func s1 .LIRC_GET_MAX_TIMEOUT 0
      match env.drvctl .LIRC_GET_MAX_TIMEOUT 0 with
      | none => (0, s2)
      | some max_timeout =>
        let val :=
          if s2.hw.setup_max_gap ≥ min_timeout ∧ s2.hw.setup_max_gap ≤ max_timeout then
            s2.hw.setup_max_gap
          else
            let v := wrap32 (s2.hw.setup_max_space + 1)
            if v < min_timeout then min_timeout
            else if v > max_timeout then max_timeout
            else v
        let s3 := drvctl_func s2 .LIRC_SET_REC_TIMEOUT val
        match env.drvctl .LIRC_SET_REC_TIMEOUT val with
        | none => (0, s3)
        | some _ => (1, drvctl_func s3 .LIRC_SET_REC_TIMEOUT_REPORTS 1)

/-- The four range queries at the head of `setup_filter`, chained by `||`: a
failing query ends the chain, and a bound that was not obtained keeps its
initial value 0.  The result lists `min_pulse_supported`, `max_pulse_supported`,
`min_space_supported`, `max_space_supported`. -/
def setup_filter_ranges (env : ConfigEnv) (s : SetupState) : (Int × Int × Int × Int) × SetupState :=
  let s1 := drvctl_func s .LIRC_GET_MIN_FILTER_PULSE 0
  match env.drvctl .LIRC_GET_MIN_FILTER_PULSE 0 with
  | none => ((0, 0, 0, 0), s1)
  | some a =>
    let s2 := drvctl_func s1 .LIRC_GET_MAX_FILTER_PULSE 0
    match env.drvctl .LIRC_GET_MAX_FILTER_PULSE 0 with
    | none => ((a, 0, 0, 0), s2)
    | some b =>
      let s3 := drvctl_func s2 .LIRC_GET_MIN_FILTER_SPACE 0
      match env.drvctl .LIRC_GET_MIN_FILTER_SPACE 0 with
      | none => ((a, b, 0, 0), s3)
      | some c =>
        let s4 := drvctl_func s3 .LIRC_GET_MAX_FILTER_SPACE 0
        match env.drvctl .LIRC_GET_MAX_FILTER_SPACE 0 with
        | none => ((a, b, c, 0), s4)
        | some d => ((a, b, c, d), s4)

/-- The two clamping statements of `setup_filter`, given the supported ranges. -/
def setup_filter_clamp (hw : Setup) (r : Int × Int × Int × Int) : Setup :=
  let hw2 :=
    if hw.setup_min_pulse > r.2.1 then { hw with setup_min_pulse := r.2.1 }
    else if hw.setup_min_pulse < r.1 then { hw with setup_min_pulse := 0 }
    else hw
  if hw2.setup_min_space > r.2.2.2 then { hw2 with setup_min_space := r.2.2.2 }
  else if hw2.setup_min_space < r.2.2.1 then { hw2 with setup_min_space := 0 }
  else hw2

/-- The function `setup_filter`; the first component is its return value. -/
def setup_filter (d : driver) (env : ConfigEnv) (s : SetupState) : Int × SetupState :=
  if !d.features .LIRC_CAN_SET_REC_FILTER then (1, s)
  else
    let q := setup_filter_ranges env s
    let s3 : SetupState := { q.2 with hw := setup_filter_clamp q.2.hw q.1 }
    let ret1 := env.drvctl .LIRC_SET_REC_FILTER_PULSE s3.hw.setup_min_pulse
    let s4 := drvctl_func s3 .LIRC_SET_REC_FILTER_PULSE s3.hw.setup_min_pulse
    let ret2 := env.drvctl .LIRC_SET_REC_FILTER_SPACE s4.hw.setup_min_space
    let s5 := drvctl_func s4 .LIRC_SET_REC_FILTER_SPACE s4.hw.setup_min_space
    if ret1 == none || ret2 == none then
      let arg := if s5.hw.setup_min_pulse < s5.hw.setup_min_space then s5.hw.setup_min_pulse
        else s5.hw.setup_min_space
      let s6 := drvctl_func s5 .LIRC_SET_REC_FILTER arg
      match env.drvctl .LIRC_SET_REC_FILTER arg with
      | none => (0, s6)
      | some _ => (1, s6)
    else (1, s5)

/-- The body of `setup_hardware` on the timing envelope; the first component is
the return value. -/
def setup_hardware_steps (d : driver) (env : ConfigEnv) (s : SetupState) : Int × SetupState :=
  if d.fd ≠ -1 ∧ d.drvctl_func = true then
    if d.features .LIRC_CAN_SET_REC_CARRIER
        || d.features .LIRC_CAN_SET_REC_TIMEOUT
        || d.features .LIRC_CAN_SET_REC_FILTER then
      let s1 := drvctl_func s .LIRC_SETUP_START 0
      let r1 := setup_frequency d env s1
      if r1.1 == 0 then (0, drvctl_func r1.2 .LIRC_SETUP_END 0)
      else
        let r2 := setup_timeout d env r1.2
        if r2.1 == 0 then (0, drvctl_func r2.2 .LIRC_SETUP_END 0)
        else
          let r3 := setup_filter d env r2.2
          (if r3.1 == 0 then 0 else 1, drvctl_func r3.2 .LIRC_SETUP_END 0)
    else (1, s)
  else (1, s)

/-- The function `setup_hardware` on the daemon state; the first component is its
return value. -/
def setup_hardware (s : State) (env : ConfigEnv) : Int × State :=
  let r := setup_hardware_steps s.curr_driver env { hw := s.hw, calls := [] }
  (r.1, { s with hw := r.2.hw, out := s.out ++ r.2.calls })

/-! ## Reload -/

/-- Stores the objects created by `read_config` in a heap. -/
def alloc {α : Type} (heap : Nat → Option α) (objs : List (Nat × α)) : Nat → Option α :=
  fun a => match objs.find? (fun p => p.1 == a) with
    | some p => some p.2
    | none => heap a

/-- The function `config`.  `fopen p` is `some true` when the file opens,
`some false` when it fails with `ENOENT` and `none` when it fails otherwise. -/
def config (s : State) (env : ConfigEnv) : State :=
  let filename := match s.configfile with
    | some f => f
    | none => env.LIRCDCFGFILE
  if s.free_remotes ≠ [] then s
  else
    let (fd, filename) :=
      match env.fopen filename with
      | some true => (true, filename)
      | some false =>
        if s.configfile = none then
          if env.fopen env.LIRCDOLDCFGFILE = some true then (true, env.LIRCDOLDCFGFILE)
          else (false, filename)
        else (false, filename)
      | none => (false, filename)
    if !fd then s
    else
      let s1 := { s with configfile := some filename }
      match env.read_config filename with
      | none => s1
      | some (config_remotes, new_remotes, new_ncodes) =>
        let s2 := { s1 with
          free_remotes := s1.remotes,
          remotes := config_remotes,
          remote_at := alloc s1.remote_at new_remotes,
          ncode_at := alloc s1.ncode_at new_ncodes }
        let s3 := { s2 with hw :=
          { setup_min_freq := env.get_frequency_range.1,
            setup_max_freq := env.get_frequency_range.2,
            setup_max_gap := env.get_filter_parameters.1,
            setup_min_pulse := env.get_filter_parameters.2.1,
            setup_min_space := env.get_filter_parameters.2.2.1,
            setup_max_pulse := env.get_filter_parameters.2.2.2.1,
            setup_max_space := env.get_filter_parameters.2.2.2.2 } }
        (setup_hardware s3 env).2

/-! ## Releasing the retiring profiles -/

/-- Modelled from the spec: the library routine `is_in_remotes` is outside this
file; it tells whether the reference points into the given generation, walking
the list and comparing pointers. -/
def is_in_remotes (remotes : List Nat) (remote : Nat) : Bool := remotes.contains remote

/-- Modelled from the spec: the library routine `get_ir_remote` is outside this
file; it looks up the profile of the given name in a generation and returns the
first one found, `none` (`NULL`) when there is none. -/
def get_ir_remote (s : State) (remotes : List Nat) (name : String) : Option Nat :=
  remotes.find? (fun a => match s.remote_at a with
    | some r => r.name == name
    | none => false)

/-- Modelled from the spec: the library routine `get_code_by_name` is outside this
file; it looks up the button of the given name in a profile and returns the
first one found, `none` (`NULL`) when there is none. -/
def get_code_by_name (s : State) (remote : Nat) (name : String) : Option Nat :=
  match s.remote_at remote with
  | some r => r.codes.find? (fun c => match s.ncode_at c with
      | some code => code.name == name
      | none => false)
  | none => none

/-- Modelled from the spec: the library routine `free_config` is outside this
file; it frees the profiles of a generation and their buttons. -/
def free_config (s : State) (remotes : List Nat) : State :=
  let codes := remotes.flatMap (fun a => match s.remote_at a with
    | some r => r.codes
    | none => [])
  { s with
    remote_at := fun a => if a ∈ remotes then none else s.remote_at a,
    ncode_at := fun c => if c ∈ codes then none else s.ncode_at c,
    out := s.out ++ [.free_config remotes] }

/-- What one call of `free_old_remotes` obtains from the release tracker: the
result of `release_map_remotes` and those of the calls of `check_release_event`
made by `input_message`. -/
structure ReloadEnv where
  release_map_remotes : Option Message
  check_release_event : List (Option Message)

/-- The block `if (last_remote != NULL) { ... }` of `free_old_remotes`. -/
def migrate_last_remote (s : State) : Option State :=
  match s.last_remote with
  | none => some s
  | some lr =>
    if is_in_remotes s.free_remotes lr then do
      let old ← s.remote_at lr
      match get_ir_remote s s.remotes old.name with
      | none => pure s
      | some found => do
        let lc ← old.last_code
        let last_code ← s.ncode_at lc
        match get_code_by_name s found last_code.name with
        | none => pure s
        | some code => do
          let f ← s.remote_at found
          let f1 := { f with
            reps := old.reps,
            toggle_bit_mask_state := old.toggle_bit_mask_state,
            min_remaining_gap := old.min_remaining_gap,
            max_remaining_gap := old.max_remaining_gap,
            last_send := old.last_send,
            last_code := some code }
          pure { s with
            remote_at := Function.update s.remote_at found (some f1),
            last_remote := some found }
    else pure { s with last_remote := none }

/-- The block `found = NULL; if (repeat_remote != NULL) { ... }` of
`free_old_remotes`; the second component is the final value of `found`. -/
def migrate_repeat_remote (s : State) : Option (State × Option Nat) :=
  match s.repeat_remote with
  | none => some (s, none)
  | some rr =>
    if s.free_remotes.contains rr then do
      let old ← s.remote_at rr
      match get_ir_remote s s.remotes old.name with
      | none => pure (s, some rr)
      | some found => do
        let rc ← s.repeat_code
        let repeat_code ← s.ncode_at rc
        match get_code_by_name s found repeat_code.name with
        | none => pure (s, some found)
        | some code => do
          let f ← s.remote_at found
          let f1 := { f with
            last_code := some code,
            last_send := old.last_send,
            toggle_bit_mask_state := old.toggle_bit_mask_state,
            min_remaining_gap := old.min_remaining_gap,
            max_remaining_gap := old.max_remaining_gap }
          let s1 := { s with remote_at := Function.update s.remote_at found (some f1) }
          let s2 := s1.emit .setitimer_save
          let s3 := { s2 with repeat_remote := some found, repeat_code := some code }
          pure (s3.emit .setitimer_restore, none)
    else pure (s, none)

/-- The lines of `free_old_remotes` from `if (last_remote != NULL)` to the end:
the two references are migrated and the retiring generation is freed when
`found` is null and the decoder does not use it. -/
def free_unless_referenced (s : State) : Option State := do
  let s2 ← migrate_last_remote s
  let r ← migrate_repeat_remote s2
  if r.2 = none ∧ r.1.decoding ≠ head_ptr r.1.free_remotes then
    pure { (free_config r.1 r.1.free_remotes) with free_remotes := [] }
  else pure r.1

/-- The function `free_old_remotes`. -/
def free_old_remotes (s : State) (env : ReloadEnv) : Option State :=
  if s.decoding = head_ptr s.free_remotes then some s
  else
    match env.release_map_remotes with
    | some m =>
      free_unless_referenced
        (input_message env.check_release_event s m.message m.remote_name m.button_name 0 1)
    | none => free_unless_referenced s

/-! ## The wait loop -/

/-- What one pass of the loop body of `mywaitfordata` reads before it calls
`poll`: the clock inside `if (timerisset(&tv))`, the result of
`get_release_time`, and the clock inside `if (timerisset(&release_time))`. -/
structure WaitEnv where
  now_tv : timeval
  release_time : timeval
  now_release : timeval
deriving DecidableEq, Repr

/-- The timeout handed to `poll`, with the locals it is computed from. -/
structure WaitTimeout where
  tv : timeval
  reconnect : Bool
  poll_timeout : Int
deriving DecidableEq, Repr

/-- The lines of `mywaitfordata` from `reconnect = 0;` to the call of `poll`:
from the value of `tv` left by the previous pass (zero at the first) they compute
`tv`, `reconnect` and the third argument of `poll`. -/
def mywaitfordata_timeout (s : State) (w : WaitEnv) (maxusec : Nat) (tv : timeval) : WaitTimeout :=
  let (tv1, reconnect) :=
    if timerisset tv then
      (if timercmp_gt w.now_tv tv then timerclear else timersub tv w.now_tv, true)
    else (tv, false)
  let tv2 : timeval :=
    if maxusec > 0 then { tv_sec := maxusec / 1000000, tv_usec := maxusec % 1000000 } else tv1
  let tv3 :=
    if s.curr_driver.fd = -1 ∧ use_hw s = true then
      let timeout : timeval := { tv_sec := 1, tv_usec := 0 }
      if timercmp_gt tv2 timeout || (!reconnect && !timerisset tv2) then timeout else tv2
    else tv2
  let tv4 :=
    if timerisset w.release_time then
      if timercmp_gt w.now_release w.release_time then timerclear
      else
        let gap := timersub w.release_time w.now_release
        if !(timerisset tv3 || reconnect) || timercmp_gt tv3 gap then gap else tv3
    else tv3
  { tv := tv4,
    reconnect := reconnect,
    poll_timeout :=
      if timerisset tv4 || timerisset w.release_time || reconnect then
        wrap32 (tv4.tv_sec * 1000 + Int.tdiv tv4.tv_usec 1000)
      else -1 }

/-! ## Signals -/

/-- The signals for which `main` installs a handler. -/
inductive Signal
  | SIGTERM
  | SIGINT
  | SIGALRM
  | SIGUSR1
  | SIGHUP
deriving DecidableEq, Repr

/-- The number by which a handler receives the signal (the Linux values). -/
def Signal.num : Signal → Int
  | .SIGHUP => 1
  | .SIGINT => 2
  | .SIGUSR1 => 10
  | .SIGALRM => 14
  | .SIGTERM => 15

/-- The function `sigterm`. -/
def sigterm (s : State) (sig : Int) : State :=
  if s.term ≠ 0 then s else { s with term := 1, termsig := sig }

/-- The function `sighup`. -/
def sighup (s : State) (_sig : Int) : State := { s with hup := 1 }

/-- The function `sigalrm`. -/
def sigalrm (s : State) (_sig : Int) : State := { s with alrm := 1 }

/-- The function `dosigterm`, up to the call that ends the process (`exit` for
`SIGUSR1`, `raise` with the default disposition otherwise). -/
def dosigterm (s : State) (sig : Int) : State :=
  let s1 := s.emit (.signal Signal.SIGALRM.num true)
  let s2 := if s1.free_remotes ≠ [] then free_config s1 s1.free_remotes else s1
  let s3 := free_config s2 s2.remotes
  let s4 := { s3 with repeat_remote := none }
  let s5 := if s4.do_shutdown ≠ 0 then s4.emit (.shutdown s4.sockfd 2) else s4
  let s6 := s5.emit (.close s5.sockfd)
  let s7 := s6.emit .pidfile_close
  let s8 := if use_hw s7 && s7.curr_driver.deinit_func then s7.emit .deinit_func else s7
  let s9 := if s8.curr_driver.close_func then s8.emit .close_func else s8
  let s10 := s9.emit (.signal sig false)
  if sig = Signal.SIGUSR1.num then s10.emit (.exit 0) else s10.emit (.raise sig)

/-- The handler functions that `main` passes to `sigaction`. -/
inductive Handler
  | sigterm
  | sigalrm
  | dosigterm
  | sighup
deriving DecidableEq, Repr

/-- The calls of `sigaction` in `main`: the handler installed for each signal. -/
def main_sigaction : Signal → Handler
  | .SIGTERM => .sigterm
  | .SIGINT => .sigterm
  | .SIGALRM => .sigalrm
  | .SIGUSR1 => .dosigterm
  | .SIGHUP => .sighup

/-- Delivery of a signal: the installed handler runs on the daemon state with the
signal's number. -/
def deliver (s : State) (sig : Signal) : State :=
  match main_sigaction sig with
  | .sigterm => sigterm s sig.num
  | .sigalrm => sigalrm s sig.num
  | .dosigterm => dosigterm s sig.num
  | .sighup => sighup s sig.num

/-! ## Example states -/

/-- A driver whose handle is open and which has all its function pointers. -/
def example_driver : driver :=
  { fd := 3, rec_mode := 2, features := fun _ => false,
    drvctl_func := true, init_func := true, deinit_func := true, close_func := true }

/-- The profile "TV" with the buttons at the given addresses. -/
def example_tv (codes : List Nat) (repeat_countdown : Int) (last_code : Option Nat) : ir_remote :=
  { name := "TV", codes := codes, repeat_countdown := repeat_countdown, last_code := last_code,
    reps := 2, toggle_bit_mask_state := 5, min_remaining_gap := 100000,
    max_remaining_gap := 120000, last_send := { tv_sec := 40, tv_usec := 7 } }

/-- The button "POWER", a single frame. -/
def example_power : ir_ncode := { name := "POWER", next := none, transmit_state := none }

/-- A daemon with no profiles, no session and no subscriber. -/
def example_idle : State :=
  { remotes := [], free_remotes := [], decoding := none, last_remote := none,
    repeat_remote := none, repeat_code := none, repeat_fd := -1, repeat_message := none,
    userelease := 0, is_open := false, configfile := none, term := 0, hup := 0, alrm := 0,
    termsig := 0, sockfd := 5, do_shutdown := 1,
    hw := { setup_min_freq := 0, setup_max_freq := 0, setup_max_gap := 0, setup_min_pulse := 0,
            setup_min_space := 0, setup_max_pulse := 0, setup_max_space := 0 },
    events_fd := 4, curr_driver := example_driver,
    remote_at := fun _ => none, ncode_at := fun _ => none, out := [] }

/-- A repeat session on "TV"/"POWER" (profile at address 1, button at address 2)
with three repeats left and a requester waiting on descriptor 7. -/
def example_session : State :=
  { example_idle with
    remotes := [1], repeat_remote := some 1, repeat_code := some 2, repeat_fd := 7,
    repeat_message := some "SEND_START TV POWER",
    remote_at := fun a => if a = 1 then some (example_tv [2] 3 (some 2)) else none,
    ncode_at := fun a => if a = 2 then some example_power else none }

/-- An alarm whose retransmission succeeds, 300 microseconds after `before_send`. -/
def example_alarm : AlarmEnv :=
  { send_ok := true,
    sent := { reps := 2, toggle_bit_mask_state := 5, min_remaining_gap := 100000,
              max_remaining_gap := 120000, last_send := { tv_sec := 41, tv_usec := 0 } },
    before_send := { tv_sec := 10, tv_nsec := 0 }, send_buffer_sum := 40000,
    current := { tv_sec := 10, tv_nsec := 300000 } }

/-- The session of `example_session` after the button at address 9 was decoded
on the profile: `last_code` no longer is the session's button. -/
def example_interrupted : State :=
  { example_session with
    remote_at := fun a => if a = 1 then some (example_tv [2, 9] 3 (some 9)) else none,
    ncode_at := fun a => if a = 2 ∨ a = 9 then some example_power else none }

/-- After a reload: the retiring generation holds "TV" at address 1 (button
"POWER" at 2, three repeats left), the current one holds a freshly parsed "TV" at
address 3 (button "POWER" at 4); the session and the last-decoded reference still
point at address 1. -/
def example_reload : State :=
  { example_idle with
    remotes := [3], free_remotes := [1], last_remote := some 1,
    repeat_remote := some 1, repeat_code := some 2, repeat_fd := 7,
    repeat_message := some "SEND_START TV POWER",
    remote_at := fun a =>
      if a = 1 then some (example_tv [2] 3 (some 2))
      else if a = 3 then some
        { name := "TV", codes := [4], repeat_countdown := 0, last_code := none, reps := 0,
          toggle_bit_mask_state := 0, min_remaining_gap := 0, max_remaining_gap := 0,
          last_send := { tv_sec := 0, tv_usec := 0 } }
      else none,
    ncode_at := fun a => if a = 2 ∨ a = 4 then some example_power else none }

/-- After a reload that removed "TV": the retiring generation holds "TV" at
address 1, the current generation is empty, no session is active and the
last-decoded reference still points at address 1. -/
def example_dangling : State :=
  { example_idle with
    remotes := [], free_remotes := [1], last_remote := some 1,
    remote_at := fun a => if a = 1 then some (example_tv [2] 0 (some 2)) else none,
    ncode_at := fun a => if a = 2 then some example_power else none }

/-- A release tracker with nothing to report. -/
def example_quiet : ReloadEnv := { release_map_remotes := none, check_release_event := [] }

/-- A config source that opens but does not parse. -/
def example_unparsable : ConfigEnv :=
  { LIRCDCFGFILE := "/etc/lirc/lircd.conf", LIRCDOLDCFGFILE := "/etc/lircd.conf",
    DEFAULT_FREQ := 38000, fopen := fun _ => some true, read_config := fun _ => none,
    get_frequency_range := (0, 0), get_filter_parameters := (0, 0, 0, 0, 0),
    drvctl := fun _ _ => some 0 }

/-- A config source that parses to the profile "TV" at address 3, read by a
driver that rejects every `drvctl_func` request. -/
def example_parsable : ConfigEnv :=
  { example_unparsable with
    read_config := fun _ => some ([3], [(3, example_tv [4] 0 none)], [(4, example_power)]),
    get_frequency_range := (36000, 40000),
    get_filter_parameters := (120000, 300, 300, 9000, 4500),
    drvctl := fun _ _ => none }

/-- The session of `example_session` on a driver that has every feature bit set. -/
def example_tunable : State :=
  { example_session with curr_driver := { example_driver with features := fun _ => true } }

/-- A pass of the wait loop with no release deadline. -/
def example_wait : WaitEnv :=
  { now_tv := { tv_sec := 1000, tv_usec := 0 }, release_time := { tv_sec := 0, tv_usec := 0 },
    now_release := { tv_sec := 1000, tv_usec := 5 } }

/-- The session of `example_session` while the driver handle is unusable. -/
def example_unplugged : State :=
  { example_session with curr_driver := { example_driver with fd := -1 } }

/-- After a reload that removed the button "POWER" from "TV": the retiring
generation holds "TV" at address 1 with "POWER" at 2, the current one holds "TV"
at address 3 with no button; the session still points at addresses 1 and 2. -/
def example_removed : State :=
  { example_idle with
    remotes := [3], free_remotes := [1], last_remote := none,
    repeat_remote := some 1, repeat_code := some 2, repeat_fd := 7,
    repeat_message := some "SEND_START TV POWER",
    remote_at := fun a =>
      if a = 1 then some (example_tv [2] 3 (some 2))
      else if a = 3 then some (example_tv [] 0 none)
      else none,
    ncode_at := fun a => if a = 2 then some example_power else none }

/-- The session of `example_session` on a profile whose minimum remaining gap is
one and a half seconds. -/
def example_slow : State :=
  { example_session with
    remote_at := fun a =>
      if a = 1 then some { example_tv [2] 3 (some 2) with min_remaining_gap := 1500000 }
      else none }

/-- The session of `example_session` with a subscriber present and no requester
waiting. -/
def example_subscribed : State :=
  { example_session with is_open := true, repeat_fd := -1, repeat_message := none }

/-- The reload of `example_reload` with a subscriber present and no requester
waiting. -/
def example_rebind : State :=
  { example_reload with is_open := true, repeat_fd := -1, repeat_message := none }

/-- An alarm whose retransmission fails: `send_ir_ncode` returns 0. -/
def example_failed : AlarmEnv := { example_alarm with send_ok := false }

/-! ## Auxiliary facts -/

theorem wrap32_of_range (x : Int) (h1 : -2147483648 ≤ x) (h2 : x < 2147483648) : wrap32 x = x := by
  unfold wrap32
  omega

theorem elapsed_diff_eq (current last : timespec) :
    elapsed_diff current last = wrap32 (elapsed_usecs current last) := by
  unfold elapsed_diff elapsed_usecs wrap32 wrapU64
  generalize Int.tdiv (current.tv_nsec - last.tv_nsec) 1000 = q
  generalize current.tv_sec - last.tv_sec = d
  simp only []
  omega

theorem repeat_timer_usecs_eq (sum g : Int) (current last : timespec)
    (hs : -2147483648 ≤ sum + g ∧ sum + g < 2147483648)
    (hd : -2147483648 ≤ elapsed_usecs current last ∧ elapsed_usecs current last < 2147483648)
    (hr : sum + g - elapsed_usecs current last < 2147483648) :
    repeat_timer_usecs sum g current last = max 10 (sum + g - elapsed_usecs current last) := by
  unfold repeat_timer_usecs
  rw [elapsed_diff_eq, wrap32_of_range _ hs.1 hs.2, wrap32_of_range _ hd.1 hd.2]
  generalize elapsed_usecs current last = d at *
  simp only []
  by_cases h : d < sum + g
  · rw [if_pos h, wrap32_of_range _ (by omega) hr]
    split_ifs <;> omega
  · rw [if_neg h]
    simp
    omega

theorem sent_profile_repeat_countdown (e : AlarmEnv) (r : ir_remote) :
    (sent_profile e r).repeat_countdown = r.repeat_countdown := rfl

theorem sent_profile_min_remaining_gap (e : AlarmEnv) (r : ir_remote) :
    (sent_profile e r).min_remaining_gap = e.sent.min_remaining_gap := rfl

theorem sent_profile_last_code (e : AlarmEnv) (r : ir_remote) :
    (sent_profile e r).last_code = r.last_code := rfl

theorem dosigalrm_continue (s : State) (e : AlarmEnv) (rr rc : Nat) (remote : ir_remote)
    (code : ir_ncode) (hrr : s.repeat_remote = some rr) (hrc : s.repeat_code = some rc)
    (hrem : s.remote_at rr = some remote) (hcode : s.ncode_at rc = some code)
    (hlast : remote.last_code = some rc) (hnext : code.next = none)
    (hok : e.send_ok = true) (hn : 2 ≤ remote.repeat_countdown) :
    dosigalrm s e = some
      { s with
        remote_at := Function.update s.remote_at rr
          (some (sent_profile e { remote with repeat_countdown := remote.repeat_countdown - 1 })),
        out := s.out ++ [.send_ir_ncode rr rc 1,
          .setitimer ⟨⟨0, 0⟩, ⟨0, repeat_timer_usecs e.send_buffer_sum e.sent.min_remaining_gap
                  e.current e.before_send⟩⟩] } := by
  have h1 : ¬ remote.repeat_countdown ≤ 1 := by omega
  simp [dosigalrm, schedule_repeat_timer, sent_profile_repeat_countdown,
    sent_profile_min_remaining_gap, State.emit, hrr, hrc, hrem, hcode, hlast, hnext, hok, h1]

theorem dosigalrm_finish (s : State) (e : AlarmEnv) (rr rc : Nat) (remote : ir_remote)
    (code : ir_ncode) (hrr : s.repeat_remote = some rr) (hrc : s.repeat_code = some rc)
    (hrem : s.remote_at rr = some remote) (hcode : s.ncode_at rc = some code)
    (hlast : remote.last_code = some rc) (hnext : code.next = none)
    (hn : remote.repeat_countdown ≤ 1 ∨ e.send_ok = false) :
    dosigalrm s e = some
      { s with
        remote_at := Function.update s.remote_at rr
          (some (sent_profile e { remote with repeat_countdown := remote.repeat_countdown - 1 })),
        repeat_remote := none,
        repeat_code := none,
        repeat_fd := -1,
        repeat_message := if s.repeat_fd ≠ -1 then none else s.repeat_message,
        out := s.out ++ [.send_ir_ncode rr rc 1]
          ++ (if s.repeat_fd ≠ -1 then [.send_success s.repeat_fd s.repeat_message] else [])
          ++ (if !s.is_open && s.curr_driver.deinit_func then [.deinit_func] else []) } := by
  have h1 : e.send_ok = true → remote.repeat_countdown ≤ 1 := by
    intro h
    rcases hn with h' | h'
    · exact h'
    · simp [h] at h'
  simp only [dosigalrm, hrr, hrem, hlast, hrc, hcode, hnext, Option.bind_eq_bind, Option.some_bind,
    Option.pure_def, ne_eq, not_true_eq_false, ite_false, beq_self_eq_true, Bool.true_or, ite_true,
    Bool.and_eq_true, decide_eq_true_eq, gt_iff_lt, sent_profile_repeat_countdown]
  rw [if_neg (by
    intro h
    have h2 : 0 < remote.repeat_countdown - 1 := h.2
    have := h1 h.1
    omega)]
  by_cases hfd : s.repeat_fd = -1 <;> cases hio : s.is_open <;>
    cases hdf : s.curr_driver.deinit_func <;>
    simp [State.emit, deinit_unless_used, use_hw, hfd, hio, hdf]

theorem dosigalrm_finish_counts (s : State) (e : AlarmEnv) (rr rc : Nat)
    (remote : ir_remote) (code : ir_ncode)
    (hrr : s.repeat_remote = some rr) (hrc : s.repeat_code = some rc)
    (hrem : s.remote_at rr = some remote) (hcode : s.ncode_at rc = some code)
    (hlast : remote.last_code = some rc) (hnext : code.next = none)
    (hn : remote.repeat_countdown ≤ 1 ∨ e.send_ok = false) :
    ∃ s' new, dosigalrm s e = some s' ∧ s'.out = s.out ++ new
      ∧ s'.repeat_remote = none ∧ s'.repeat_code = none ∧ s'.repeat_fd = -1
      ∧ new.countP Event.isSend = 1
      ∧ new.countP Event.isSetitimer = 0
      ∧ new.countP Event.isSuccess = (if s.repeat_fd ≠ -1 then 1 else 0)
      ∧ new.countP Event.isError = 0 := by
  have hfin := dosigalrm_finish s e rr rc remote code hrr hrc hrem hcode hlast hnext hn
  obtain ⟨sf, hsf⟩ : ∃ sf : State, sf = { s with
        remote_at := Function.update s.remote_at rr
          (some (sent_profile e { remote with repeat_countdown := remote.repeat_countdown - 1 })),
        repeat_remote := none,
        repeat_code := none,
        repeat_fd := -1,
        repeat_message := if s.repeat_fd ≠ -1 then none else s.repeat_message,
        out := s.out ++ [.send_ir_ncode rr rc 1]
          ++ (if s.repeat_fd ≠ -1 then [.send_success s.repeat_fd s.repeat_message] else [])
          ++ (if !s.is_open && s.curr_driver.deinit_func then [.deinit_func] else []) } := ⟨_, rfl⟩
  rw [← hsf] at hfin
  refine ⟨sf, [.send_ir_ncode rr rc 1]
          ++ (if s.repeat_fd ≠ -1 then [.send_success s.repeat_fd s.repeat_message] else [])
          ++ (if !s.is_open && s.curr_driver.deinit_func then [.deinit_func] else []),
        hfin, ?_, ?_, ?_, ?_, ?_, ?_, ?_, ?_⟩
  · rw [hsf]; simp only [List.append_assoc]
  · rw [hsf]
  · rw [hsf]
  · rw [hsf]
  · by_cases hfd : s.repeat_fd = -1 <;> cases hio : s.is_open <;>
      cases hdf : s.curr_driver.deinit_func <;> simp [Event.isSend, hfd]
  · by_cases hfd : s.repeat_fd = -1 <;> cases hio : s.is_open <;>
      cases hdf : s.curr_driver.deinit_func <;> simp [Event.isSetitimer, hfd]
  · by_cases hfd : s.repeat_fd = -1 <;> cases hio : s.is_open <;>
      cases hdf : s.curr_driver.deinit_func <;> simp [Event.isSuccess, hfd]
  · by_cases hfd : s.repeat_fd = -1 <;> cases hio : s.is_open <;>
      cases hdf : s.curr_driver.deinit_func <;> simp [Event.isError, hfd]

theorem dosigalrm_interrupt (s : State) (e : AlarmEnv) (rr : Nat) (remote : ir_remote)
    (hrr : s.repeat_remote = some rr) (hrem : s.remote_at rr = some remote)
    (hne : remote.last_code ≠ s.repeat_code) :
    dosigalrm s e = some
      { s with
        repeat_remote := none,
        repeat_code := none,
        repeat_fd := -1,
        repeat_message := none,
        out := s.out
          ++ (if s.repeat_fd ≠ -1 then
                [.send_error s.repeat_fd s.repeat_message "repeating interrupted\n"]
              else [])
          ++ (if !s.is_open && s.curr_driver.deinit_func then [.deinit_func] else []) } := by
  simp only [dosigalrm, hrr, hrem, Option.bind_eq_bind, Option.some_bind, Option.pure_def, ne_eq,
    hne, not_false_eq_true, ite_true]
  by_cases hfd : s.repeat_fd = -1 <;> cases hio : s.is_open <;>
    cases hdf : s.curr_driver.deinit_func <;> cases hm : s.repeat_message <;>
    simp [State.emit, deinit_unless_used, use_hw, hfd, hio, hdf, hm]

theorem dosigalrm_run_countdown (n : Nat) : ∀ (s : State) (es : List AlarmEnv) (rr rc : Nat)
    (remote : ir_remote) (code : ir_ncode),
    s.repeat_remote = some rr → s.repeat_code = some rc →
    s.remote_at rr = some remote → s.ncode_at rc = some code →
    remote.last_code = some rc → code.next = none →
    remote.repeat_countdown = n + 1 → es.length = n + 1 → (∀ e ∈ es, e.send_ok = true) →
    ∃ s' new, dosigalrm_run es s = some s' ∧ s'.out = s.out ++ new
      ∧ s'.repeat_remote = none ∧ s'.repeat_code = none ∧ s'.repeat_fd = -1
      ∧ new.countP Event.isSend = n + 1
      ∧ new.countP Event.isSetitimer = n
      ∧ new.countP Event.isSuccess = (if s.repeat_fd ≠ -1 then 1 else 0)
      ∧ new.countP Event.isError = 0
      ∧ (∀ k, k < n + 1 → ∃ sk newk, dosigalrm_run (es.take k) s = some sk
          ∧ sk.repeat_remote = some rr ∧ sk.out = s.out ++ newk
          ∧ newk.countP Event.isSend = k ∧ newk.countP Event.isSetitimer = k) := by
  induction n with
  | zero =>
    intro s es rr rc remote code hrr hrc hrem hcode hlast hnext hn hlen hok
    cases es with
    | nil => simp at hlen
    | cons e es' =>
      cases es' with
      | cons e2 es2 => simp at hlen
      | nil =>
        obtain ⟨s', new, hrun, hout, h1, h2, h3, h4, h5, h6, h7⟩ :=
          dosigalrm_finish_counts s e rr rc remote code hrr hrc hrem hcode hlast hnext
            (Or.inl (by omega))
        refine ⟨s', new, by simp only [dosigalrm_run, hrun, Option.some_bind], hout, h1, h2, h3,
          h4, h5, h6, h7, ?_⟩
        intro k hk
        have hk0 : k = 0 := by omega
        subst hk0
        exact ⟨s, [], by simp [dosigalrm_run], hrr, by simp, by simp, by simp⟩
  | succ n ih =>
    intro s es rr rc remote code hrr hrc hrem hcode hlast hnext hn hlen hok
    cases es with
    | nil => simp at hlen
    | cons e es' =>
      have hlen'' : es'.length = n + 1 := by simpa using hlen
      have hcont := dosigalrm_continue s e rr rc remote code hrr hrc hrem hcode hlast hnext
        (hok e (by simp)) (by omega)
      obtain ⟨s1, hs1⟩ : ∃ s1 : State, s1 = { s with
          remote_at := Function.update s.remote_at rr
            (some (sent_profile e { remote with repeat_countdown := remote.repeat_countdown - 1 })),
          out := s.out ++ [.send_ir_ncode rr rc 1,
            .setitimer ⟨⟨0, 0⟩, ⟨0, repeat_timer_usecs e.send_buffer_sum e.sent.min_remaining_gap
                  e.current e.before_send⟩⟩] } := ⟨_, rfl⟩
      rw [← hs1] at hcont
      have hfd1 : s1.repeat_fd = s.repeat_fd := by rw [hs1]
      have hout1 : s1.out = s.out ++ [.send_ir_ncode rr rc 1,
            .setitimer ⟨⟨0, 0⟩, ⟨0, repeat_timer_usecs e.send_buffer_sum e.sent.min_remaining_gap
                  e.current e.before_send⟩⟩] := by rw [hs1]
      obtain ⟨s', new, hrun, hout, h1, h2, h3, h4, h5, h6, h7, h8⟩ :=
        ih s1 es' rr rc
          (sent_profile e { remote with repeat_countdown := remote.repeat_countdown - 1 }) code
          (by rw [hs1]; exact hrr) (by rw [hs1]; exact hrc)
          (by rw [hs1]; exact Function.update_same _ _ _)
          (by rw [hs1]; exact hcode)
          hlast hnext (by show remote.repeat_countdown - 1 = _; omega) hlen''
          (fun e' he' => hok e' (by simp [he']))
      rw [hfd1] at h6
      refine ⟨s', .send_ir_ncode rr rc 1 :: .setitimer ⟨⟨0, 0⟩, ⟨0, repeat_timer_usecs
          e.send_buffer_sum e.sent.min_remaining_gap e.current e.before_send⟩⟩ :: new,
        ?_, ?_, h1, h2, h3, ?_, ?_, ?_, ?_, ?_⟩
      · simp only [dosigalrm_run, hcont, Option.some_bind]
        exact hrun
      · rw [hout, hout1]
        simp
      · simp [Event.isSend, h4]
      · simp [Event.isSetitimer, h5]
      · simpa [Event.isSuccess] using h6
      · simpa [Event.isError] using h7
      · intro k hk
        cases k with
        | zero => exact ⟨s, [], by simp [dosigalrm_run], hrr, by simp, by simp, by simp⟩
        | succ j =>
          obtain ⟨sk, newk, hsk, hrrk, houtk, hsendk, hsetk⟩ := h8 j (by omega)
          refine ⟨sk, .send_ir_ncode rr rc 1 :: .setitimer ⟨⟨0, 0⟩, ⟨0, repeat_timer_usecs
            e.send_buffer_sum e.sent.min_remaining_gap e.current e.before_send⟩⟩ :: newk,
            ?_, hrrk, ?_, ?_, ?_⟩
          · simp only [List.take_succ_cons, dosigalrm_run, hcont, Option.some_bind]
            exact hsk
          · rw [houtk, hout1]
            simp
          · simp [Event.isSend, hsendk]
          · simp [Event.isSetitimer, hsetk]

theorem input_message_eq (checks : List (Option Message)) :
    ∀ (s : State) (message remote_name button_name : String) (reps release : Int),
    input_message checks s message remote_name button_name reps release
      = (if release = 0 ∨ s.userelease ≠ 0 then
          broadcast_message
            { s with out := s.out ++
                (if s.userelease ≠ 0 ∧ s.events_fd ≥ 0 then
                  (pending_releases checks).reverse.map
                    (fun m => Event.write_socket s.events_fd m.message)
                else []) } message
        else
          { s with out := s.out ++
              (if s.userelease ≠ 0 ∧ s.events_fd ≥ 0 then
                (pending_releases checks).reverse.map
                  (fun m => Event.write_socket s.events_fd m.message)
              else []) }) := by
  induction checks with
  | nil =>
    intro s message rn bn reps release
    simp [input_message, pending_releases]
  | cons c checks ih =>
    intro s message rn bn reps release
    cases c with
    | none => simp [input_message, pending_releases]
    | some m =>
      simp only [input_message, pending_releases]
      rw [ih]
      by_cases hu : s.userelease = 0 <;> by_cases hfd : s.events_fd ≥ 0 <;>
        by_cases hr : release = 0 <;>
        simp [hu, hfd, hr, broadcast_message, State.emit]

theorem get_ir_remote_congr (s t : State) (l : List Nat) (name : String)
    (h : ∀ a, (t.remote_at a).map ir_remote.name = (s.remote_at a).map ir_remote.name) :
    get_ir_remote t l name = get_ir_remote s l name := by
  unfold get_ir_remote
  congr 1
  funext a
  have ha := h a
  cases hs : s.remote_at a <;> cases ht : t.remote_at a <;> simp_all

theorem get_code_by_name_congr (s t : State) (remote : Nat) (name : String)
    (hn : t.ncode_at = s.ncode_at)
    (h : (t.remote_at remote).map ir_remote.codes = (s.remote_at remote).map ir_remote.codes) :
    get_code_by_name t remote name = get_code_by_name s remote name := by
  unfold get_code_by_name
  cases hs : s.remote_at remote <;> cases ht : t.remote_at remote <;> simp_all

theorem get_ir_remote_mem (s : State) (l : List Nat) (name : String) (found : Nat)
    (h : get_ir_remote s l name = some found) : found ∈ l := by
  unfold get_ir_remote at h
  exact List.mem_of_find?_eq_some h

theorem get_ir_remote_some (s : State) (l : List Nat) (name : String) (found : Nat)
    (h : get_ir_remote s l name = some found) : ∃ r, s.remote_at found = some r := by
  unfold get_ir_remote at h
  have := List.find?_some h
  cases hr : s.remote_at found with
  | none => simp [hr] at this
  | some r => exact ⟨r, rfl⟩

/-- What `migrate_last_remote` keeps: the profiles of the retiring generation, and
the name, buttons and countdown of every profile. -/
theorem migrate_last_remote_spec (s : State)
    (hdisj : ∀ a ∈ s.remotes, a ∉ s.free_remotes)
    (hlast : ∀ lr, s.last_remote = some lr → lr ∈ s.free_remotes →
      ∃ r lc c, s.remote_at lr = some r ∧ r.last_code = some lc ∧ s.ncode_at lc = some c) :
    ∃ s2, migrate_last_remote s = some s2
      ∧ s2 = { s with remote_at := s2.remote_at, last_remote := s2.last_remote }
      ∧ (∀ a ∈ s.free_remotes, s2.remote_at a = s.remote_at a)
      ∧ (∀ a, (s2.remote_at a).map ir_remote.name = (s.remote_at a).map ir_remote.name)
      ∧ (∀ a, (s2.remote_at a).map ir_remote.codes = (s.remote_at a).map ir_remote.codes)
      ∧ (∀ a, (s2.remote_at a).map ir_remote.repeat_countdown
            = (s.remote_at a).map ir_remote.repeat_countdown) := by
  unfold migrate_last_remote
  cases hlr : s.last_remote with
  | none => exact ⟨s, rfl, rfl, fun _ _ => rfl, fun _ => rfl, fun _ => rfl, fun _ => rfl⟩
  | some lr =>
    dsimp only
    by_cases hin : is_in_remotes s.free_remotes lr = true
    · rw [if_pos hin]
      have hmem : lr ∈ s.free_remotes := by simpa [is_in_remotes] using hin
      obtain ⟨r, lc, c, hr, hlc, hc⟩ := hlast lr hlr hmem
      simp only [hr, Option.bind_eq_bind, Option.some_bind, Option.pure_def]
      cases hfound : get_ir_remote s s.remotes r.name with
      | none =>
        exact ⟨s, rfl, rfl, fun _ _ => rfl, fun _ => rfl, fun _ => rfl, fun _ => rfl⟩
      | some found =>
        simp only [hlc, hc, Option.some_bind]
        cases hcode : get_code_by_name s found c.name with
        | none =>
          exact ⟨s, rfl, rfl, fun _ _ => rfl, fun _ => rfl, fun _ => rfl, fun _ => rfl⟩
        | some code =>
          obtain ⟨f, hf⟩ := get_ir_remote_some s s.remotes r.name found hfound
          have hnot : found ∉ s.free_remotes :=
            hdisj found (get_ir_remote_mem s s.remotes r.name found hfound)
          simp only [hf, Option.some_bind]
          refine ⟨_, rfl, rfl, ?_, ?_, ?_, ?_⟩
          · intro a ha
            have : a ≠ found := fun h => hnot (h ▸ ha)
            simp [Function.update_noteq this]
          · intro a
            by_cases ha : a = found
            · subst ha; simp [hf]
            · simp [Function.update_noteq ha]
          · intro a
            by_cases ha : a = found
            · subst ha; simp [hf]
            · simp [Function.update_noteq ha]
          · intro a
            by_cases ha : a = found
            · subst ha; simp [hf]
            · simp [Function.update_noteq ha]
    · rw [if_neg hin]
      exact ⟨_, rfl, rfl, fun _ _ => rfl, fun _ => rfl, fun _ => rfl, fun _ => rfl⟩

theorem input_message_frame (checks : List (Option Message)) (s : State)
    (message remote_name button_name : String) (reps release : Int) :
    ∃ o, input_message checks s message remote_name button_name reps release
      = { s with out := o } := by
  rw [input_message_eq]
  unfold broadcast_message State.emit
  split_ifs <;> exact ⟨_, rfl⟩

theorem migrate_repeat_remote_rebind (s : State) (rr rc found code : Nat) (old f : ir_remote)
    (ocode : ir_ncode) (hrr : s.repeat_remote = some rr) (hin : rr ∈ s.free_remotes)
    (hold : s.remote_at rr = some old) (hrc : s.repeat_code = some rc)
    (hoc : s.ncode_at rc = some ocode)
    (hfound : get_ir_remote s s.remotes old.name = some found)
    (hf : s.remote_at found = some f)
    (hcode : get_code_by_name s found ocode.name = some code) :
    migrate_repeat_remote s = some
      ({ s with
          remote_at := Function.update s.remote_at found (some { f with
            last_code := some code,
            last_send := old.last_send,
            toggle_bit_mask_state := old.toggle_bit_mask_state,
            min_remaining_gap := old.min_remaining_gap,
            max_remaining_gap := old.max_remaining_gap }),
          repeat_remote := some found,
          repeat_code := some code,
          out := s.out ++ [.setitimer_save, .setitimer_restore] }, none) := by
  simp [migrate_repeat_remote, hrr, hin, hold, hfound, hrc, hoc, hcode, hf, State.emit]

theorem free_unless_referenced_rebinds (s : State) (rr rc found code : Nat)
    (old f : ir_remote) (ocode : ir_ncode)
    (hdec : s.decoding ≠ head_ptr s.free_remotes)
    (hdisj : ∀ a ∈ s.remotes, a ∉ s.free_remotes)
    (hlast : ∀ lr, s.last_remote = some lr → lr ∈ s.free_remotes →
      ∃ r lc c, s.remote_at lr = some r ∧ r.last_code = some lc ∧ s.ncode_at lc = some c)
    (hrr : s.repeat_remote = some rr) (hin : rr ∈ s.free_remotes)
    (hold : s.remote_at rr = some old) (hrc : s.repeat_code = some rc)
    (hoc : s.ncode_at rc = some ocode)
    (hfound : get_ir_remote s s.remotes old.name = some found)
    (hf : s.remote_at found = some f)
    (hcode : get_code_by_name s found ocode.name = some code) :
    ∃ s' f', free_unless_referenced s = some s'
      ∧ s'.repeat_remote = some found ∧ s'.repeat_code = some code
      ∧ found ∈ s'.remotes
      ∧ s'.remote_at found = some f'
      ∧ f'.last_code = some code
      ∧ f'.toggle_bit_mask_state = old.toggle_bit_mask_state
      ∧ f'.min_remaining_gap = old.min_remaining_gap
      ∧ f'.max_remaining_gap = old.max_remaining_gap
      ∧ f'.last_send = old.last_send
      ∧ f'.repeat_countdown = f.repeat_countdown := by
  unfold free_unless_referenced
  obtain ⟨s2, hm, hs2, hfree2, hname2, hcodes2, hcount2⟩ := migrate_last_remote_spec s hdisj hlast
  have f_remotes : s2.remotes = s.remotes := by rw [hs2]
  have f_free : s2.free_remotes = s.free_remotes := by rw [hs2]
  have f_dec : s2.decoding = s.decoding := by rw [hs2]
  have f_rr : s2.repeat_remote = some rr := by rw [hs2]; exact hrr
  have f_rc : s2.repeat_code = some rc := by rw [hs2]; exact hrc
  have f_nat : s2.ncode_at = s.ncode_at := by rw [hs2]
  have f_old : s2.remote_at rr = some old := by
    rw [hfree2 rr hin]; exact hold
  have f_found : get_ir_remote s2 s2.remotes old.name = some found := by
    rw [f_remotes, get_ir_remote_congr s s2 _ _ hname2]
    exact hfound
  have f_code : get_code_by_name s2 found ocode.name = some code := by
    rw [get_code_by_name_congr s s2 found _ f_nat (hcodes2 found)]
    exact hcode
  obtain ⟨f2, hf2⟩ := get_ir_remote_some s2 s2.remotes old.name found f_found
  have hcnt : f2.repeat_countdown = f.repeat_countdown := by
    have := hcount2 found
    rw [hf2, hf] at this
    simpa using this
  have hmem : found ∈ s.remotes := get_ir_remote_mem s s.remotes old.name found hfound
  have hnot : found ∉ s.free_remotes := hdisj found hmem
  have hmig := migrate_repeat_remote_rebind s2 rr rc found code old f2 ocode f_rr
    (by rw [f_free]; exact hin) f_old f_rc (by rw [f_nat]; exact hoc) f_found hf2 f_code
  have hdec3 : s2.decoding ≠ head_ptr s2.free_remotes := by rw [f_dec, f_free]; exact hdec
  simp only [hm, hmig, Option.bind_eq_bind, Option.some_bind, Option.pure_def]
  rw [if_pos ⟨trivial, hdec3⟩]
  refine ⟨_, { f2 with
      last_code := some code,
      last_send := old.last_send,
      toggle_bit_mask_state := old.toggle_bit_mask_state,
      min_remaining_gap := old.min_remaining_gap,
      max_remaining_gap := old.max_remaining_gap }, rfl, rfl, rfl, ?_, ?_, rfl, rfl, rfl, rfl, rfl,
    hcnt⟩
  · show found ∈ s2.remotes
    rw [f_remotes]; exact hmem
  · show (if found ∈ s2.free_remotes then none else _) = _
    rw [f_free, if_neg hnot]
    exact Function.update_same _ _ _

theorem bind_eq_of_eq_some {α β : Type} {o : Option α} {a : α} (h : o = some a)
    (f : α → Option β) : o.bind f = f a := by
  rw [h]
  rfl

theorem dosigalrm_after_send (s : State) (e : AlarmEnv) (rr rc : Nat) (r1 : ir_remote)
    (hrr : s.repeat_remote = some rr) :
    (let remote2 := sent_profile e r1
     let s1 := { s with remote_at := Function.update s.remote_at rr (some remote2) }
     let s2 := s1.emit (.send_ir_ncode rr rc 1)
     if e.send_ok && decide (remote2.repeat_countdown > 0) then
       schedule_repeat_timer s2 e e.before_send
     else
       let s3 := { s2 with repeat_remote := none, repeat_code := none }
       let s4 := if s3.repeat_fd ≠ -1 then
           { (s3.emit (.send_success s3.repeat_fd s3.repeat_message)) with
             repeat_message := none, repeat_fd := -1 }
         else s3
       pure (deinit_unless_used s4)) = some
          (if e.send_ok = true ∧ 0 < r1.repeat_countdown then
            { s with
              remote_at := Function.update s.remote_at rr (some (sent_profile e r1)),
              out := s.out ++ [.send_ir_ncode rr rc 1,
                .setitimer ⟨⟨0, 0⟩, ⟨0, repeat_timer_usecs e.send_buffer_sum
                  e.sent.min_remaining_gap e.current e.before_send⟩⟩] }
          else
            { s with
              remote_at := Function.update s.remote_at rr (some (sent_profile e r1)),
              repeat_remote := none,
              repeat_code := none,
              repeat_fd := -1,
              repeat_message := if s.repeat_fd ≠ -1 then none else s.repeat_message,
              out := s.out ++ [.send_ir_ncode rr rc 1]
                ++ (if s.repeat_fd ≠ -1 then [.send_success s.repeat_fd s.repeat_message] else [])
                ++ (if !s.is_open && s.curr_driver.deinit_func then [.deinit_func] else []) }) := by
  by_cases hok : e.send_ok = true <;> by_cases hpos : 0 < r1.repeat_countdown <;>
    by_cases hfd : s.repeat_fd = -1 <;> cases hio : s.is_open <;>
    cases hdf : s.curr_driver.deinit_func <;>
    simp [schedule_repeat_timer, sent_profile_repeat_countdown, sent_profile_min_remaining_gap,
      State.emit, deinit_unless_used, use_hw, hrr, hok, hpos, hfd, hio, hdf]

/-- One alarm firing whose last decoded button is the session's button: the
profile's countdown is kept or decremented, the button is retransmitted, and the
timer is re-armed or the session finalised. -/
theorem dosigalrm_sends (s : State) (e : AlarmEnv) (rr rc : Nat) (remote : ir_remote)
    (code : ir_ncode) (hrr : s.repeat_remote = some rr) (hrc : s.repeat_code = some rc)
    (hrem : s.remote_at rr = some remote) (hcode : s.ncode_at rc = some code)
    (hlast : remote.last_code = some rc) :
    ∃ c : Int, (c = remote.repeat_countdown ∨ c = remote.repeat_countdown - 1)
      ∧ (code.next = none → c = remote.repeat_countdown - 1)
      ∧ dosigalrm s e = some
          (if e.send_ok = true ∧ 0 < c then
            { s with
              remote_at := Function.update s.remote_at rr
                (some (sent_profile e { remote with repeat_countdown := c })),
              out := s.out ++ [.send_ir_ncode rr rc 1,
                .setitimer ⟨⟨0, 0⟩, ⟨0, repeat_timer_usecs e.send_buffer_sum
                  e.sent.min_remaining_gap e.current e.before_send⟩⟩] }
          else
            { s with
              remote_at := Function.update s.remote_at rr
                (some (sent_profile e { remote with repeat_countdown := c })),
              repeat_remote := none,
              repeat_code := none,
              repeat_fd := -1,
              repeat_message := if s.repeat_fd ≠ -1 then none else s.repeat_message,
              out := s.out ++ [.send_ir_ncode rr rc 1]
                ++ (if s.repeat_fd ≠ -1 then [.send_success s.repeat_fd s.repeat_message] else [])
                ++ (if !s.is_open && s.curr_driver.deinit_func then [.deinit_func] else []) }) := by
  have hcond : ¬ (remote.last_code ≠ s.repeat_code) := fun h => h (hlast.trans hrc.symm)
  have hrun : ∀ r1 : ir_remote,
      (if (code.next == none
            || (match code.transmit_state with
                | some node => node.next == none
                | none => false)) = true then
          { remote with repeat_countdown := remote.repeat_countdown - 1 }
        else remote) = r1 →
      dosigalrm s e = some
          (if e.send_ok = true ∧ 0 < r1.repeat_countdown then
            { s with
              remote_at := Function.update s.remote_at rr (some (sent_profile e r1)),
              out := s.out ++ [.send_ir_ncode rr rc 1,
                .setitimer ⟨⟨0, 0⟩, ⟨0, repeat_timer_usecs e.send_buffer_sum
                  e.sent.min_remaining_gap e.current e.before_send⟩⟩] }
          else
            { s with
              remote_at := Function.update s.remote_at rr (some (sent_profile e r1)),
              repeat_remote := none,
              repeat_code := none,
              repeat_fd := -1,
              repeat_message := if s.repeat_fd ≠ -1 then none else s.repeat_message,
              out := s.out ++ [.send_ir_ncode rr rc 1]
                ++ (if s.repeat_fd ≠ -1 then [.send_success s.repeat_fd s.repeat_message] else [])
                ++ (if !s.is_open && s.curr_driver.deinit_func then [.deinit_func] else []) }) := by
    intro r1 hr1
    unfold dosigalrm
    simp only [Option.bind_eq_bind]
    rw [bind_eq_of_eq_some hrr, bind_eq_of_eq_some hrem, if_neg hcond, bind_eq_of_eq_some hrc,
      bind_eq_of_eq_some hcode]
    subst hr1
    exact dosigalrm_after_send s e rr rc _ hrr
  cases hn : code.next with
  | none =>
    exact ⟨remote.repeat_countdown - 1, Or.inr rfl, fun _ => rfl,
      hrun { remote with repeat_countdown := remote.repeat_countdown - 1 } (by simp [hn])⟩
  | some n =>
    cases hts : code.transmit_state with
    | none =>
      exact ⟨remote.repeat_countdown, Or.inl rfl, (fun h => by cases h), hrun remote (by simp [hn, hts])⟩
    | some node =>
      cases hnn : node.next with
      | none =>
        exact ⟨remote.repeat_countdown - 1, Or.inr rfl, (fun h => by cases h),
          hrun { remote with repeat_countdown := remote.repeat_countdown - 1 } (by simp [hn, hts, hnn])⟩
      | some m =>
        exact ⟨remote.repeat_countdown, Or.inl rfl, (fun h => by cases h),
          hrun remote (by simp [hn, hts, hnn])⟩

/-- A pass of `mywaitfordata` with `maxusec = 0` that starts with `tv` clear computes
the smaller of the armed deadlines: one second when the driver handle is unusable
and the hardware is wanted, the time left to the release deadline (zero once it has
passed) when one is set. -/
theorem mywaitfordata_timeout_clear (s : State) (w : WaitEnv) :
    (mywaitfordata_timeout s w 0 timerclear).tv
      = (if timerisset w.release_time then
          (if timercmp_gt w.now_release w.release_time then timerclear
           else if s.curr_driver.fd = -1 ∧ use_hw s = true then
             (if timercmp_gt ⟨1, 0⟩ (timersub w.release_time w.now_release) then
               timersub w.release_time w.now_release
              else ⟨1, 0⟩)
           else timersub w.release_time w.now_release)
        else if s.curr_driver.fd = -1 ∧ use_hw s = true then ⟨1, 0⟩
        else timerclear) := by
  unfold mywaitfordata_timeout
  by_cases hrel : timerisset w.release_time = true <;>
    by_cases hhw : (s.curr_driver.fd = -1 ∧ use_hw s = true) <;>
    by_cases hpast : timercmp_gt w.now_release w.release_time = true <;>
    simp [hrel, hhw, hpast, timerisset, timerclear, timercmp_gt]

theorem input_message_out (checks : List (Option Message)) (s : State)
    (message remote_name button_name : String) (reps release : Int) :
    ∃ evs, input_message checks s message remote_name button_name reps release
        = { s with out := s.out ++ evs }
      ∧ evs.countP Event.isError = 0 ∧ evs.countP Event.isSuccess = 0 := by
  have hmap : ∀ (l : List Message),
      (l.map (fun m => Event.write_socket s.events_fd m.message)).countP Event.isError = 0
      ∧ (l.map (fun m => Event.write_socket s.events_fd m.message)).countP Event.isSuccess = 0 := by
    intro l
    induction l with
    | nil => simp
    | cons m l ih => simp [Event.isError, Event.isSuccess, ih.1, ih.2]
  rw [input_message_eq]
  have h := hmap (pending_releases checks).reverse
  refine ⟨(if s.userelease ≠ 0 ∧ s.events_fd ≥ 0 then
        (pending_releases checks).reverse.map (fun m => Event.write_socket s.events_fd m.message)
      else [])
      ++ (if (release = 0 ∨ s.userelease ≠ 0) ∧ s.events_fd ≥ 0 then
        [Event.write_socket s.events_fd message] else []), ?_, ?_, ?_⟩
  · by_cases hu : s.userelease = 0 <;> by_cases hfd : s.events_fd ≥ 0 <;>
      by_cases hr : release = 0 <;>
      simp [hu, hfd, hr, broadcast_message, State.emit]
  · by_cases hu : s.userelease = 0 <;> by_cases hfd : s.events_fd ≥ 0 <;>
      by_cases hr : release = 0 <;>
      simp [hu, hfd, hr, Event.isError, h.1]
  · by_cases hu : s.userelease = 0 <;> by_cases hfd : s.events_fd ≥ 0 <;>
      by_cases hr : release = 0 <;>
      simp [hu, hfd, hr, Event.isSuccess, h.2]

theorem migrate_repeat_remote_keeps (s : State) (rr : Nat) (old : ir_remote)
    (hrr : s.repeat_remote = some rr) (hin : rr ∈ s.free_remotes)
    (hold : s.remote_at rr = some old)
    (hmiss : get_ir_remote s s.remotes old.name = none
      ∨ ∃ found rc ocode, get_ir_remote s s.remotes old.name = some found
          ∧ s.repeat_code = some rc ∧ s.ncode_at rc = some ocode
          ∧ get_code_by_name s found ocode.name = none) :
    ∃ found, migrate_repeat_remote s = some (s, some found) := by
  rcases hmiss with hnone | ⟨found, rc, ocode, hfound, hrc, hoc, hcode⟩
  · exact ⟨rr, by simp [migrate_repeat_remote, hrr, hin, hold, hnone]⟩
  · exact ⟨found, by simp [migrate_repeat_remote, hrr, hin, hold, hfound, hrc, hoc, hcode]⟩

theorem free_unless_referenced_keeps (s : State) (rr : Nat) (old : ir_remote)
    (hdisj : ∀ a ∈ s.remotes, a ∉ s.free_remotes)
    (hlast : ∀ lr, s.last_remote = some lr → lr ∈ s.free_remotes →
      ∃ r lc c, s.remote_at lr = some r ∧ r.last_code = some lc ∧ s.ncode_at lc = some c)
    (hrr : s.repeat_remote = some rr) (hin : rr ∈ s.free_remotes)
    (hold : s.remote_at rr = some old)
    (hmiss : get_ir_remote s s.remotes old.name = none
      ∨ ∃ found rc ocode, get_ir_remote s s.remotes old.name = some found
          ∧ s.repeat_code = some rc ∧ s.ncode_at rc = some ocode
          ∧ get_code_by_name s found ocode.name = none) :
    ∃ s', free_unless_referenced s = some s'
      ∧ s'.repeat_remote = some rr ∧ s'.repeat_code = s.repeat_code
      ∧ s'.repeat_fd = s.repeat_fd ∧ s'.repeat_message = s.repeat_message
      ∧ s'.free_remotes = s.free_remotes ∧ s'.remote_at rr = some old
      ∧ s'.out = s.out := by
  unfold free_unless_referenced
  obtain ⟨s2, hm, hs2, hfree2, hname2, hcodes2, _⟩ := migrate_last_remote_spec s hdisj hlast
  have f_remotes : s2.remotes = s.remotes := by rw [hs2]
  have f_free : s2.free_remotes = s.free_remotes := by rw [hs2]
  have f_rr : s2.repeat_remote = some rr := by rw [hs2]; exact hrr
  have f_rc : s2.repeat_code = s.repeat_code := by rw [hs2]
  have f_fd : s2.repeat_fd = s.repeat_fd := by rw [hs2]
  have f_msg : s2.repeat_message = s.repeat_message := by rw [hs2]
  have f_out : s2.out = s.out := by rw [hs2]
  have f_nat : s2.ncode_at = s.ncode_at := by rw [hs2]
  have f_old : s2.remote_at rr = some old := by rw [hfree2 rr hin]; exact hold
  have f_ir : get_ir_remote s2 s2.remotes old.name = get_ir_remote s s.remotes old.name := by
    rw [f_remotes, get_ir_remote_congr s s2 _ _ hname2]
  have f_miss : get_ir_remote s2 s2.remotes old.name = none
      ∨ ∃ found rc ocode, get_ir_remote s2 s2.remotes old.name = some found
          ∧ s2.repeat_code = some rc ∧ s2.ncode_at rc = some ocode
          ∧ get_code_by_name s2 found ocode.name = none := by
    rcases hmiss with hnone | ⟨found, rc, ocode, hfound, hrc, hoc, hcode⟩
    · exact Or.inl (f_ir.trans hnone)
    · refine Or.inr ⟨found, rc, ocode, f_ir.trans hfound, f_rc.trans hrc, by rw [f_nat]; exact hoc, ?_⟩
      rw [get_code_by_name_congr s s2 found _ f_nat (hcodes2 found)]
      exact hcode
  obtain ⟨found, hmig⟩ := migrate_repeat_remote_keeps s2 rr old f_rr (by rw [f_free]; exact hin)
    f_old f_miss
  simp only [hm, hmig, Option.bind_eq_bind, Option.some_bind, Option.pure_def]
  rw [if_neg (by simp)]
  exact ⟨s2, rfl, f_rr, f_rc, f_fd, f_msg, f_free, f_old, f_out⟩

theorem migrate_last_remote_frame (s : State)
    (hlast : ∀ lr, s.last_remote = some lr → lr ∈ s.free_remotes →
      ∃ r lc c, s.remote_at lr = some r ∧ r.last_code = some lc ∧ s.ncode_at lc = some c) :
    ∃ s2, migrate_last_remote s = some s2
      ∧ ∀ a, a ∉ s.remotes → s2.remote_at a = s.remote_at a := by
  unfold migrate_last_remote
  cases hlr : s.last_remote with
  | none => exact ⟨s, rfl, fun _ _ => rfl⟩
  | some lr =>
    dsimp only
    by_cases hin : is_in_remotes s.free_remotes lr = true
    · rw [if_pos hin]
      have hmem : lr ∈ s.free_remotes := by simpa [is_in_remotes] using hin
      obtain ⟨r, lc, c, hr, hlc, hc⟩ := hlast lr hlr hmem
      simp only [hr, Option.bind_eq_bind, Option.some_bind, Option.pure_def]
      cases hfound : get_ir_remote s s.remotes r.name with
      | none => exact ⟨s, rfl, fun _ _ => rfl⟩
      | some found =>
        simp only [hlc, hc, Option.some_bind]
        cases hcode : get_code_by_name s found c.name with
        | none => exact ⟨s, rfl, fun _ _ => rfl⟩
        | some code =>
          obtain ⟨f, hf⟩ := get_ir_remote_some s s.remotes r.name found hfound
          have hmemf : found ∈ s.remotes := get_ir_remote_mem s s.remotes r.name found hfound
          simp only [hf, Option.some_bind]
          refine ⟨_, rfl, ?_⟩
          intro a ha
          have : a ≠ found := fun h => ha (h ▸ hmemf)
          simp [Function.update_noteq this]
    · rw [if_neg hin]
      exact ⟨_, rfl, fun _ _ => rfl⟩

theorem migrate_repeat_remote_frame (s : State)
    (hrep : ∀ rr, s.repeat_remote = some rr → rr ∈ s.free_remotes →
      ∃ r rc c, s.remote_at rr = some r ∧ s.repeat_code = some rc ∧ s.ncode_at rc = some c) :
    ∃ r, migrate_repeat_remote s = some r
      ∧ r.1.free_remotes = s.free_remotes
      ∧ ∀ a, a ∉ s.remotes → r.1.remote_at a = s.remote_at a := by
  unfold migrate_repeat_remote
  cases hrr : s.repeat_remote with
  | none => exact ⟨_, rfl, rfl, fun _ _ => rfl⟩
  | some rr =>
    dsimp only
    by_cases hin : rr ∈ s.free_remotes
    · obtain ⟨r, rc, c, hr, hrc, hc⟩ := hrep rr hrr hin
      have hcont : s.free_remotes.contains rr = true := by simpa using hin
      rw [if_pos hcont]
      simp only [hr, Option.bind_eq_bind, Option.some_bind, Option.pure_def]
      cases hfound : get_ir_remote s s.remotes r.name with
      | none => exact ⟨_, rfl, rfl, fun _ _ => rfl⟩
      | some found =>
        simp only [hrc, hc, Option.some_bind]
        cases hcode : get_code_by_name s found c.name with
        | none => exact ⟨_, rfl, rfl, fun _ _ => rfl⟩
        | some code =>
          obtain ⟨f, hf⟩ := get_ir_remote_some s s.remotes r.name found hfound
          have hmemf : found ∈ s.remotes := get_ir_remote_mem s s.remotes r.name found hfound
          simp only [hf, Option.some_bind]
          refine ⟨_, rfl, rfl, ?_⟩
          intro a ha
          have : a ≠ found := fun h => ha (h ▸ hmemf)
          simp [State.emit, Function.update_noteq this]
    · have hcont : ¬ s.free_remotes.contains rr = true := by simpa using hin
      rw [if_neg hcont]
      exact ⟨_, rfl, rfl, fun _ _ => rfl⟩

theorem free_unless_referenced_frame (s : State)
    (hdisj : ∀ a ∈ s.remotes, a ∉ s.free_remotes)
    (hlast : ∀ lr, s.last_remote = some lr → lr ∈ s.free_remotes →
      ∃ r lc c, s.remote_at lr = some r ∧ r.last_code = some lc ∧ s.ncode_at lc = some c)
    (hrep : ∀ rr, s.repeat_remote = some rr → rr ∈ s.free_remotes →
      ∃ r rc c, s.remote_at rr = some r ∧ s.repeat_code = some rc ∧ s.ncode_at rc = some c) :
    ∃ s', free_unless_referenced s = some s'
      ∧ ∀ a, a ∉ s.remotes →
          s'.remote_at a = s.remote_at a
          ∨ (a ∈ s.free_remotes ∧ s'.free_remotes = [] ∧ s'.remote_at a = none) := by
  unfold free_unless_referenced
  obtain ⟨s2, hm, hs2, hfree2, _, _, _⟩ := migrate_last_remote_spec s hdisj hlast
  obtain ⟨s2', hm', hframe2⟩ := migrate_last_remote_frame s hlast
  obtain rfl : s2 = s2' := Option.some.inj (hm.symm.trans hm')
  have f_remotes : s2.remotes = s.remotes := by rw [hs2]
  have f_free : s2.free_remotes = s.free_remotes := by rw [hs2]
  have f_rr : s2.repeat_remote = s.repeat_remote := by rw [hs2]
  have f_rc : s2.repeat_code = s.repeat_code := by rw [hs2]
  have f_nat : s2.ncode_at = s.ncode_at := by rw [hs2]
  obtain ⟨r, hmig, hfree3, hframe3⟩ := migrate_repeat_remote_frame s2 (by
    intro rr hrr hin
    rw [f_rr] at hrr
    rw [f_free] at hin
    obtain ⟨q, rc, c, hq, hrc, hc⟩ := hrep rr hrr hin
    exact ⟨q, rc, c, by rw [hfree2 rr hin]; exact hq, by rw [f_rc]; exact hrc,
      by rw [f_nat]; exact hc⟩)
  simp only [hm, hmig, Option.bind_eq_bind, Option.some_bind, Option.pure_def]
  split
  · refine ⟨_, rfl, ?_⟩
    intro a ha
    by_cases hmem : a ∈ s.free_remotes
    · right
      refine ⟨hmem, rfl, ?_⟩
      show (if a ∈ r.1.free_remotes then none else _) = _
      rw [hfree3, f_free, if_pos hmem]
    · left
      show (if a ∈ r.1.free_remotes then none else _) = _
      rw [hfree3, f_free, if_neg hmem, hframe3 a (by rw [f_remotes]; exact ha), hframe2 a ha]
  · refine ⟨_, rfl, ?_⟩
    intro a ha
    left
    rw [hframe3 a (by rw [f_remotes]; exact ha), hframe2 a ha]

/-! ## The repeat timer and the alarm (C3, C4, C5, C8) -/

/-- C3: in a repeat session whose profile has repeat countdown `N ≥ 1`, whose
last decoded button is the session's button, whose button has no further frames
and whose retransmissions all succeed, `N` successive calls of `dosigalrm` return
and call `send_ir_ncode` exactly `N` times and `setitimer` exactly `N - 1` times; after
each of the first `k < N` calls the session is still bound and exactly `k`
retransmissions and `k` re-arms have been made (so the `N`-th call does not re-arm);
the `N`-th call clears the session; `send_success` is called exactly once when a
requester waits (`repeat_fd != -1`) and not at all otherwise, and `send_error` never. -/
theorem dosigalrm_countdown_exhausts (N : Nat) (s : State) (es : List AlarmEnv) (rr rc : Nat)
    (remote : ir_remote) (code : ir_ncode) (hN : 1 ≤ N)
    (hrr : s.repeat_remote = some rr) (hrc : s.repeat_code = some rc)
    (hrem : s.remote_at rr = some remote) (hcode : s.ncode_at rc = some code)
    (hlast : remote.last_code = some rc) (hnext : code.next = none)
    (hcount : remote.repeat_countdown = N) (hlen : es.length = N)
    (hok : ∀ e ∈ es, e.send_ok = true) :
    ∃ s' new, dosigalrm_run es s = some s' ∧ s'.out = s.out ++ new
      ∧ s'.repeat_remote = none ∧ s'.repeat_code = none ∧ s'.repeat_fd = -1
      ∧ new.countP Event.isSend = N
      ∧ new.countP Event.isSetitimer = N - 1
      ∧ new.countP Event.isSuccess = (if s.repeat_fd ≠ -1 then 1 else 0)
      ∧ new.countP Event.isError = 0
      ∧ (∀ k, k < N → ∃ sk newk, dosigalrm_run (es.take k) s = some sk
          ∧ sk.repeat_remote = some rr ∧ sk.out = s.out ++ newk
          ∧ newk.countP Event.isSend = k ∧ newk.countP Event.isSetitimer = k) := by
  obtain ⟨n, rfl⟩ : ∃ n, N = n + 1 := ⟨N - 1, by omega⟩
  exact dosigalrm_run_countdown n s es rr rc remote code hrr hrc hrem hcode hlast hnext
    (by simpa using hcount) hlen hok

/-- Witness of C3: the session on "TV"/"POWER" with countdown 3 and a waiting
requester, under three alarms. -/
theorem dosigalrm_countdown_exhausts_witness :
    ∃ s' new, dosigalrm_run [example_alarm, example_alarm, example_alarm] example_session = some s'
      ∧ s'.out = example_session.out ++ new
      ∧ s'.repeat_remote = none ∧ s'.repeat_code = none ∧ s'.repeat_fd = -1
      ∧ new.countP Event.isSend = 3
      ∧ new.countP Event.isSetitimer = 3 - 1
      ∧ new.countP Event.isSuccess = (if example_session.repeat_fd ≠ -1 then 1 else 0)
      ∧ new.countP Event.isError = 0
      ∧ (∀ k, k < 3 → ∃ sk newk,
          dosigalrm_run ([example_alarm, example_alarm, example_alarm].take k) example_session
            = some sk
          ∧ sk.repeat_remote = some 1 ∧ sk.out = example_session.out ++ newk
          ∧ newk.countP Event.isSend = k ∧ newk.countP Event.isSetitimer = k) :=
  dosigalrm_countdown_exhausts 3 example_session [example_alarm, example_alarm, example_alarm] 1 2
    (example_tv [2] 3 (some 2)) example_power (by decide) rfl rfl rfl rfl rfl rfl rfl rfl
    (by decide)

/-- C4: when `dosigalrm` runs and the profile's last decoded button differs from
the session's button, it returns with the session cleared (`repeat_remote` and
`repeat_code` null, `repeat_fd = -1`, `repeat_message` null) and every other
variable and both heaps unchanged; the only calls made are `send_error` with the
text "repeating interrupted", once when a requester waits and not at all
otherwise, and the driver's `deinit_func` when the hardware is no longer used: no
`send_ir_ncode` and no `setitimer`. -/
theorem dosigalrm_interrupted (s : State) (e : AlarmEnv) (rr : Nat) (remote : ir_remote)
    (hrr : s.repeat_remote = some rr) (hrem : s.remote_at rr = some remote)
    (hne : remote.last_code ≠ s.repeat_code) :
    ∃ s', dosigalrm s e = some s'
      ∧ s' = { s with
                repeat_remote := none, repeat_code := none,
                repeat_fd := -1, repeat_message := none, out := s'.out }
      ∧ s'.out = s.out
          ++ (if s.repeat_fd ≠ -1 then
                [.send_error s.repeat_fd s.repeat_message "repeating interrupted\n"]
              else [])
          ++ (if !s.is_open && s.curr_driver.deinit_func then [.deinit_func] else [])
      ∧ (s'.out.drop s.out.length).countP Event.isSend = 0
      ∧ (s'.out.drop s.out.length).countP Event.isSetitimer = 0
      ∧ (s'.out.drop s.out.length).countP Event.isError = (if s.repeat_fd ≠ -1 then 1 else 0)
      ∧ (s'.out.drop s.out.length).countP Event.isSuccess = 0 := by
  refine ⟨_, dosigalrm_interrupt s e rr remote hrr hrem hne, rfl, rfl, ?_, ?_, ?_, ?_⟩ <;>
    by_cases hfd : s.repeat_fd = -1 <;> cases hio : s.is_open <;>
    cases hdf : s.curr_driver.deinit_func <;>
    simp [Event.isSend, Event.isSetitimer, Event.isError, Event.isSuccess, hfd]

/-- Witness of C4: the session on "TV"/"POWER" after another button (address 9)
was decoded on the profile. -/
theorem dosigalrm_interrupted_witness :
    ∃ s', dosigalrm example_interrupted example_alarm = some s'
      ∧ s' = { example_interrupted with
                repeat_remote := none, repeat_code := none,
                repeat_fd := -1, repeat_message := none, out := s'.out }
      ∧ s'.out = example_interrupted.out
          ++ (if example_interrupted.repeat_fd ≠ -1 then
                [.send_error example_interrupted.repeat_fd example_interrupted.repeat_message
                  "repeating interrupted\n"]
              else [])
          ++ (if !example_interrupted.is_open && example_interrupted.curr_driver.deinit_func then
                [.deinit_func] else [])
      ∧ (s'.out.drop example_interrupted.out.length).countP Event.isSend = 0
      ∧ (s'.out.drop example_interrupted.out.length).countP Event.isSetitimer = 0
      ∧ (s'.out.drop example_interrupted.out.length).countP Event.isError
          = (if example_interrupted.repeat_fd ≠ -1 then 1 else 0)
      ∧ (s'.out.drop example_interrupted.out.length).countP Event.isSuccess = 0 :=
  dosigalrm_interrupted example_interrupted example_alarm 1 (example_tv [2, 9] 3 (some 9))
    rfl rfl (by decide)

/-- C5 (counterexample): with a requester waiting on descriptor 7 and
`send_ir_ncode` returning 0, `dosigalrm` ends the session and the calls it makes
are the retransmission, `send_success` to the requester and the driver's
`deinit_func`; no `send_error` is made. -/
theorem dosigalrm_failed_send_reports_success :
    (dosigalrm example_session { example_alarm with send_ok := false }).map
        (fun s' => (s'.repeat_remote, s'.repeat_code, s'.repeat_fd, s'.out))
      = some (none, none, -1,
          [.send_ir_ncode 1 2 1, .send_success 7 (some "SEND_START TV POWER"), .deinit_func]) := by
  decide

/-- C5 (amended): in a repeat session whose profile's last decoded button is the
session's button, when the retransmission fails (`send_ir_ncode` returns 0),
`dosigalrm` returns with the session ended (`repeat_remote` and `repeat_code` null,
`repeat_fd` equal to -1) after exactly one retransmission, the timer is not re-armed,
and no `send_error` is made; a waiting requester (`repeat_fd` different from -1) is
sent exactly one `send_success`, the report of an exhausted countdown, and its
message is released; with no requester waiting no report is made at all. -/
theorem dosigalrm_failed_send_finalizes (s : State) (e : AlarmEnv) (rr rc : Nat)
    (remote : ir_remote) (code : ir_ncode)
    (hrr : s.repeat_remote = some rr) (hrc : s.repeat_code = some rc)
    (hrem : s.remote_at rr = some remote) (hcode : s.ncode_at rc = some code)
    (hlast : remote.last_code = some rc) (hfail : e.send_ok = false) :
    ∃ s' new, dosigalrm s e = some s' ∧ s'.out = s.out ++ new
      ∧ s'.repeat_remote = none ∧ s'.repeat_code = none ∧ s'.repeat_fd = -1
      ∧ new.countP Event.isSend = 1
      ∧ new.countP Event.isSetitimer = 0
      ∧ new.countP Event.isError = 0
      ∧ new.countP Event.isSuccess = (if s.repeat_fd ≠ -1 then 1 else 0)
      ∧ (s.repeat_fd ≠ -1 →
          Event.send_success s.repeat_fd s.repeat_message ∈ new ∧ s'.repeat_message = none) := by
  obtain ⟨c, _, _, hdo⟩ := dosigalrm_sends s e rr rc remote code hrr hrc hrem hcode hlast
  have hgo : ¬ (e.send_ok = true ∧ 0 < c) := by
    intro h
    have h1 := h.1
    rw [hfail] at h1
    cases h1
  rw [if_neg hgo] at hdo
  obtain ⟨sf, hsf⟩ : ∃ sf : State, sf = { s with
        remote_at := Function.update s.remote_at rr
          (some (sent_profile e { remote with repeat_countdown := c })),
        repeat_remote := none,
        repeat_code := none,
        repeat_fd := -1,
        repeat_message := if s.repeat_fd ≠ -1 then none else s.repeat_message,
        out := s.out ++ [.send_ir_ncode rr rc 1]
          ++ (if s.repeat_fd ≠ -1 then [.send_success s.repeat_fd s.repeat_message] else [])
          ++ (if !s.is_open && s.curr_driver.deinit_func then [.deinit_func] else []) } := ⟨_, rfl⟩
  rw [← hsf] at hdo
  refine ⟨sf, [.send_ir_ncode rr rc 1]
          ++ (if s.repeat_fd ≠ -1 then [.send_success s.repeat_fd s.repeat_message] else [])
          ++ (if !s.is_open && s.curr_driver.deinit_func then [.deinit_func] else []),
        hdo, ?_, ?_, ?_, ?_, ?_, ?_, ?_, ?_, ?_⟩
  · rw [hsf]; simp only [List.append_assoc]
  · rw [hsf]
  · rw [hsf]
  · rw [hsf]
  · by_cases hfd : s.repeat_fd = -1 <;> cases hio : s.is_open <;>
      cases hdf : s.curr_driver.deinit_func <;> simp [Event.isSend, hfd]
  · by_cases hfd : s.repeat_fd = -1 <;> cases hio : s.is_open <;>
      cases hdf : s.curr_driver.deinit_func <;> simp [Event.isSetitimer, hfd]
  · by_cases hfd : s.repeat_fd = -1 <;> cases hio : s.is_open <;>
      cases hdf : s.curr_driver.deinit_func <;> simp [Event.isError, hfd]
  · by_cases hfd : s.repeat_fd = -1 <;> cases hio : s.is_open <;>
      cases hdf : s.curr_driver.deinit_func <;> simp [Event.isSuccess, hfd]
  · intro hfd
    constructor
    · simp [hfd]
    · rw [hsf]
      exact if_pos hfd

/-- Witness of C5 (amended): the session on "TV"/"POWER" with a requester waiting
on descriptor 7 and a failing retransmission. -/
theorem dosigalrm_failed_send_finalizes_witness :
    ∃ s' new, dosigalrm example_session example_failed = some s'
      ∧ s'.out = example_session.out ++ new
      ∧ s'.repeat_remote = none ∧ s'.repeat_code = none ∧ s'.repeat_fd = -1
      ∧ new.countP Event.isSend = 1
      ∧ new.countP Event.isSetitimer = 0
      ∧ new.countP Event.isError = 0
      ∧ new.countP Event.isSuccess = (if example_session.repeat_fd ≠ -1 then 1 else 0)
      ∧ (example_session.repeat_fd ≠ -1 →
          Event.send_success example_session.repeat_fd example_session.repeat_message ∈ new
            ∧ s'.repeat_message = none) :=
  dosigalrm_failed_send_finalizes example_session example_failed 1 2 (example_tv [2] 3 (some 2))
    example_power rfl rfl rfl rfl rfl rfl

/-- C8: for every queued-transmission sum `s`, minimum remaining gap `g` and clock
readings whose elapsed microseconds `d` lie in the `int` range together with `s + g`
and `(s + g) - d`, `schedule_repeat_timer` returns having armed the timer with the
one-shot delay `max 10 ((s + g) - d)` microseconds: the delay is `(s + g) - d` when
that is at least 10, exactly 10 when it is smaller, and never below 10. -/
theorem schedule_repeat_timer_delay (s : State) (e : AlarmEnv) (last : timespec) (rr : Nat)
    (remote : ir_remote) (hrr : s.repeat_remote = some rr) (hrem : s.remote_at rr = some remote)
    (hd : -2147483648 ≤ elapsed_usecs e.current last ∧ elapsed_usecs e.current last < 2147483648)
    (hsg : -2147483648 ≤ e.send_buffer_sum + remote.min_remaining_gap
      ∧ e.send_buffer_sum + remote.min_remaining_gap < 2147483648)
    (hr : e.send_buffer_sum + remote.min_remaining_gap - elapsed_usecs e.current last
      < 2147483648) :
    schedule_repeat_timer s e last = some (s.emit (.setitimer
      { it_interval := { tv_sec := 0, tv_usec := 0 },
        it_value :=
          { tv_sec := 0,
            tv_usec := max 10
              (e.send_buffer_sum + remote.min_remaining_gap - elapsed_usecs e.current last) } }))
    ∧ (10 ≤ e.send_buffer_sum + remote.min_remaining_gap - elapsed_usecs e.current last →
        repeat_timer_usecs e.send_buffer_sum remote.min_remaining_gap e.current last
          = e.send_buffer_sum + remote.min_remaining_gap - elapsed_usecs e.current last)
    ∧ (e.send_buffer_sum + remote.min_remaining_gap - elapsed_usecs e.current last < 10 →
        repeat_timer_usecs e.send_buffer_sum remote.min_remaining_gap e.current last = 10)
    ∧ 10 ≤ repeat_timer_usecs e.send_buffer_sum remote.min_remaining_gap e.current last := by
  have hu := repeat_timer_usecs_eq e.send_buffer_sum remote.min_remaining_gap e.current last
    hsg hd hr
  refine ⟨?_, ?_, ?_, ?_⟩
  · simp [schedule_repeat_timer, hrr, hrem, hu]
  · intro h
    rw [hu]
    omega
  · intro h
    rw [hu]
    omega
  · rw [hu]
    omega

/-- Witness of C8: sum 40000, gap 100000, 300 microseconds elapsed. -/
theorem schedule_repeat_timer_delay_witness :
    schedule_repeat_timer example_session example_alarm example_alarm.before_send
      = some (example_session.emit (.setitimer
        { it_interval := { tv_sec := 0, tv_usec := 0 },
          it_value :=
            { tv_sec := 0,
              tv_usec := max 10
                (example_alarm.send_buffer_sum + (example_tv [2] 3 (some 2)).min_remaining_gap
                  - elapsed_usecs example_alarm.current example_alarm.before_send) } }))
    ∧ (10 ≤ example_alarm.send_buffer_sum + (example_tv [2] 3 (some 2)).min_remaining_gap
          - elapsed_usecs example_alarm.current example_alarm.before_send →
        repeat_timer_usecs example_alarm.send_buffer_sum
            (example_tv [2] 3 (some 2)).min_remaining_gap example_alarm.current
            example_alarm.before_send
          = example_alarm.send_buffer_sum + (example_tv [2] 3 (some 2)).min_remaining_gap
            - elapsed_usecs example_alarm.current example_alarm.before_send)
    ∧ (example_alarm.send_buffer_sum + (example_tv [2] 3 (some 2)).min_remaining_gap
          - elapsed_usecs example_alarm.current example_alarm.before_send < 10 →
        repeat_timer_usecs example_alarm.send_buffer_sum
            (example_tv [2] 3 (some 2)).min_remaining_gap example_alarm.current
            example_alarm.before_send = 10)
    ∧ 10 ≤ repeat_timer_usecs example_alarm.send_buffer_sum
        (example_tv [2] 3 (some 2)).min_remaining_gap example_alarm.current
        example_alarm.before_send :=
  schedule_repeat_timer_delay example_session example_alarm example_alarm.before_send 1
    (example_tv [2] 3 (some 2)) rfl rfl (by decide) (by decide) (by decide)

/-! ## Reload (C1, C2, C6, C7) -/

/-- C1 (evaluation at the failing input): the last-decoded reference points at
the profile at address 1 of the retiring generation and its name is absent from
the new generation, so it cannot be migrated; `free_old_remotes` nevertheless
frees the retiring generation (`free_remotes` becomes null, the profile at address
1 is gone) and leaves `last_remote` pointing at address 1. -/
theorem free_old_remotes_leaves_last_remote_dangling :
    example_dangling.last_remote = some 1
      ∧ is_in_remotes example_dangling.free_remotes 1 = true
      ∧ get_ir_remote example_dangling example_dangling.remotes "TV" = none
      ∧ (free_old_remotes example_dangling example_quiet).map
          (fun s' => (s'.free_remotes, s'.last_remote, s'.remote_at 1, s'.out))
        = some ([], some 1, none, [.free_config [1]]) := by
  decide

/-- C2 (evaluation at the failing input): a subscriber is present, no requester
waits, and the session's profile "TV" (three repeats left) and button "POWER" both
exist in the new generation.  `free_old_remotes` rebinds the session to them
(addresses 3 and 4) and copies the toggle-bit state, the remaining gaps and the
last-send timestamp, but the new profile's repeat countdown is 0 after the call
while the old profile's was 3; the next alarm firing retransmits once and ends the
session, whereas without the reload it re-arms the timer and the session goes on. -/
theorem free_old_remotes_drops_countdown :
    example_rebind.is_open = true ∧ example_rebind.repeat_fd = -1
      ∧ get_ir_remote example_rebind example_rebind.remotes "TV" = some 3
      ∧ get_code_by_name example_rebind 3 "POWER" = some 4
      ∧ (example_rebind.remote_at 1).map
          (fun r => (r.repeat_countdown, r.toggle_bit_mask_state, r.min_remaining_gap,
            r.max_remaining_gap, r.last_send))
        = some (3, 5, 100000, 120000, { tv_sec := 40, tv_usec := 7 })
      ∧ (free_old_remotes example_rebind example_quiet).map
          (fun s' => (s'.repeat_remote, s'.repeat_code))
        = some (some 3, some 4)
      ∧ ((free_old_remotes example_rebind example_quiet).bind (fun s' => s'.remote_at 3)).map
          (fun r => (r.repeat_countdown, r.toggle_bit_mask_state, r.min_remaining_gap,
            r.max_remaining_gap, r.last_send))
        = some (0, 5, 100000, 120000, { tv_sec := 40, tv_usec := 7 })
      ∧ ((free_old_remotes example_rebind example_quiet).bind
            (fun s' => (dosigalrm s' example_alarm).map
              (fun t => (t.repeat_remote,
                (t.out.drop s'.out.length).countP Event.isSend,
                (t.out.drop s'.out.length).countP Event.isSetitimer))))
        = some (none, 1, 0)
      ∧ (dosigalrm example_rebind example_alarm).map
          (fun t => (t.repeat_remote,
            (t.out.drop example_rebind.out.length).countP Event.isSend,
            (t.out.drop example_rebind.out.length).countP Event.isSetitimer))
        = some (some 1, 1, 1) :=
  ⟨(by decide), (by decide), (by decide), (by decide), (by decide), (by decide), (by decide),
    (by decide), (by decide)⟩

/-- Extent of the defect shown for C2: when the decoder does not use the retiring
generation, the two generations share no profile, the last-decoded reference (if it
points into the retiring generation) has a last button, and the repeat session is
bound to a profile of the retiring generation whose name and whose button's name
both exist in the new generation, `free_old_remotes` returns with the session
rebound to the new generation's profile and button, and that profile has the new
button as its last code and the old profile's toggle-bit state, minimum and maximum
remaining gap and last-send timestamp; the old profile's repeat countdown is not
written to it: its countdown is still the one it had before the call. -/
theorem free_old_remotes_rebind_misses_countdown (s : State) (env : ReloadEnv)
    (rr rc found code : Nat) (old f : ir_remote) (ocode : ir_ncode)
    (hdec : s.decoding ≠ head_ptr s.free_remotes)
    (hdisj : ∀ a ∈ s.remotes, a ∉ s.free_remotes)
    (hlast : ∀ lr, s.last_remote = some lr → lr ∈ s.free_remotes →
      ∃ r lc c, s.remote_at lr = some r ∧ r.last_code = some lc ∧ s.ncode_at lc = some c)
    (hrr : s.repeat_remote = some rr) (hin : rr ∈ s.free_remotes)
    (hold : s.remote_at rr = some old) (hrc : s.repeat_code = some rc)
    (hoc : s.ncode_at rc = some ocode)
    (hfound : get_ir_remote s s.remotes old.name = some found)
    (hf : s.remote_at found = some f)
    (hcode : get_code_by_name s found ocode.name = some code) :
    ∃ s' f', free_old_remotes s env = some s'
      ∧ s'.repeat_remote = some found ∧ s'.repeat_code = some code
      ∧ found ∈ s'.remotes
      ∧ s'.remote_at found = some f'
      ∧ f'.last_code = some code
      ∧ f'.toggle_bit_mask_state = old.toggle_bit_mask_state
      ∧ f'.min_remaining_gap = old.min_remaining_gap
      ∧ f'.max_remaining_gap = old.max_remaining_gap
      ∧ f'.last_send = old.last_send
      ∧ f'.repeat_countdown = f.repeat_countdown := by
  unfold free_old_remotes
  rw [if_neg hdec]
  cases env.release_map_remotes with
  | none =>
    exact free_unless_referenced_rebinds s rr rc found code old f ocode hdec hdisj hlast hrr hin
      hold hrc hoc hfound hf hcode
  | some m =>
    obtain ⟨o, ho⟩ := input_message_frame env.check_release_event s m.message m.remote_name
      m.button_name 0 1
    simp only [ho]
    exact free_unless_referenced_rebinds { s with out := o } rr rc found code old f ocode hdec
      hdisj hlast hrr hin hold hrc hoc hfound hf hcode

/-- C6: when `config` cannot open the config source (neither the configured path
nor, where it applies, the old default location) or `read_config` returns the
error sentinel for the file opened, the current generation, `free_remotes`, the
timing envelope, both heaps and the trace of outside calls (so no hardware setup
request) are unchanged; the only variable that may change is `configfile`. -/
theorem config_failure_atomic (s : State) (env : ConfigEnv)
    (h : (env.fopen (s.configfile.getD env.LIRCDCFGFILE) = some true
            ∧ env.read_config (s.configfile.getD env.LIRCDCFGFILE) = none)
      ∨ (env.fopen (s.configfile.getD env.LIRCDCFGFILE) = some false ∧ s.configfile = none
            ∧ env.fopen env.LIRCDOLDCFGFILE = some true
            ∧ env.read_config env.LIRCDOLDCFGFILE = none)
      ∨ (env.fopen (s.configfile.getD env.LIRCDCFGFILE) = some false
            ∧ (s.configfile ≠ none ∨ env.fopen env.LIRCDOLDCFGFILE ≠ some true))
      ∨ env.fopen (s.configfile.getD env.LIRCDCFGFILE) = none) :
    (config s env).remotes = s.remotes
      ∧ (config s env).free_remotes = s.free_remotes
      ∧ (config s env).hw = s.hw
      ∧ (config s env).out = s.out
      ∧ (config s env).remote_at = s.remote_at
      ∧ (config s env).ncode_at = s.ncode_at
      ∧ config s env = { s with configfile := (config s env).configfile } := by
  unfold config
  by_cases hf : s.free_remotes = []
  · rw [if_neg (fun hne => hne hf)]
    cases hc : s.configfile with
    | none =>
      simp only [hc, Option.getD_none, ne_eq, not_true_eq_false, false_or] at h
      rcases h with ⟨h1, h2⟩ | ⟨h1, _, h3, h4⟩ | ⟨h1, h3⟩ | h1
      · simp [h1, h2]
      · simp [h1, h3, h4]
      · simp [h1, h3]
      · simp [h1]
    | some f =>
      simp only [hc, Option.getD_some] at h
      rcases h with ⟨h1, h2⟩ | ⟨_, habs, _⟩ | ⟨h1, _⟩ | h1
      · simp [h1, h2]
      · cases habs
      · simp [h1]
      · simp [h1]
  · simp [hf]

/-- Witness of C6: a source that opens but does not parse. -/
theorem config_failure_atomic_witness :
    (config example_session example_unparsable).remotes = example_session.remotes
      ∧ (config example_session example_unparsable).free_remotes = example_session.free_remotes
      ∧ (config example_session example_unparsable).hw = example_session.hw
      ∧ (config example_session example_unparsable).out = example_session.out
      ∧ (config example_session example_unparsable).remote_at = example_session.remote_at
      ∧ (config example_session example_unparsable).ncode_at = example_session.ncode_at
      ∧ config example_session example_unparsable
          = { example_session with
              configfile := (config example_session example_unparsable).configfile } :=
  config_failure_atomic example_session example_unparsable (Or.inl ⟨rfl, rfl⟩)

/-- C7: with no retiring generation, when `config` opens its source (the
configured path or the old default location) and `read_config` returns a list of
profiles, empty or not, the previously current list becomes `free_remotes`, the
parsed list becomes current and the parsed objects are on the heaps, for every
driver and every answer of the driver to the setup requests. -/
theorem config_swaps_generations (s : State) (env : ConfigEnv) (config_remotes : List Nat)
    (new_remotes : List (Nat × ir_remote)) (new_ncodes : List (Nat × ir_ncode))
    (hfree : s.free_remotes = [])
    (h : (env.fopen (s.configfile.getD env.LIRCDCFGFILE) = some true
            ∧ env.read_config (s.configfile.getD env.LIRCDCFGFILE)
                = some (config_remotes, new_remotes, new_ncodes))
      ∨ (env.fopen (s.configfile.getD env.LIRCDCFGFILE) = some false ∧ s.configfile = none
            ∧ env.fopen env.LIRCDOLDCFGFILE = some true
            ∧ env.read_config env.LIRCDOLDCFGFILE
                = some (config_remotes, new_remotes, new_ncodes))) :
    (config s env).free_remotes = s.remotes
      ∧ (config s env).remotes = config_remotes
      ∧ (config s env).remote_at = alloc s.remote_at new_remotes
      ∧ (config s env).ncode_at = alloc s.ncode_at new_ncodes := by
  unfold config
  cases hc : s.configfile with
  | none =>
    simp only [hc, Option.getD_none] at h
    rcases h with ⟨h1, h2⟩ | ⟨h1, _, h3, h4⟩
    · simp [hfree, h1, h2, setup_hardware]
    · simp [hfree, h1, h3, h4, setup_hardware]
  | some f =>
    simp only [hc, Option.getD_some] at h
    rcases h with ⟨h1, h2⟩ | ⟨_, habs, _⟩
    · simp [hfree, h1, h2, setup_hardware]
    · cases habs

/-- Witness of C7: a reload on a driver that rejects every setup request, so that
`setup_hardware` fails after three requests. -/
theorem config_swaps_generations_witness :
    (config example_tunable example_parsable).out
        = [.drvctl_func .LIRC_SETUP_START 0, .drvctl_func .LIRC_SET_REC_CARRIER_RANGE 36000,
            .drvctl_func .LIRC_SETUP_END 0]
      ∧ (config example_tunable example_parsable).free_remotes = example_tunable.remotes
      ∧ (config example_tunable example_parsable).remotes = [3]
      ∧ (config example_tunable example_parsable).remote_at
          = alloc example_tunable.remote_at [(3, example_tv [4] 0 none)]
      ∧ (config example_tunable example_parsable).ncode_at
          = alloc example_tunable.ncode_at [(4, example_power)] :=
  ⟨by decide,
    config_swaps_generations example_tunable example_parsable [3] [(3, example_tv [4] 0 none)]
      [(4, example_power)] rfl (Or.inl ⟨rfl, rfl⟩)⟩

/-! ## Broadcasting and the wait loop (C9, C10) -/

/-- C9: `input_message` first passes on the pending release events (broadcast
only when `userelease` is non-zero), and then broadcasts its own message exactly
when `release == 0` or `userelease != 0`; a release message with release
reporting disabled leaves the state as it was, and a message without the release
flag is always handed to `broadcast_message`. -/
theorem input_message_broadcasts (checks : List (Option Message)) (s : State)
    (message remote_name button_name : String) (reps release : Int) :
    ∃ s1 : State,
      s1 = { s with out := s.out ++
              (if s.userelease ≠ 0 ∧ s.events_fd ≥ 0 then
                (pending_releases checks).reverse.map
                  (fun m => Event.write_socket s.events_fd m.message)
              else []) }
      ∧ input_message checks s message remote_name button_name reps release
          = (if release = 0 ∨ s.userelease ≠ 0 then broadcast_message s1 message else s1)
      ∧ (release ≠ 0 ∧ s.userelease = 0 →
          input_message checks s message remote_name button_name reps release = s)
      ∧ (release = 0 →
          input_message checks s message remote_name button_name reps release
            = broadcast_message s1 message) := by
  refine ⟨_, rfl, input_message_eq checks s message remote_name button_name reps release, ?_, ?_⟩
  · rintro ⟨hr, hu⟩
    rw [input_message_eq, if_neg (by simp [hr, hu]), if_neg (by simp [hu])]
    simp only [List.append_nil]
  · intro hr
    rw [input_message_eq]
    simp [hr]

/-- C10: in a pass of `mywaitfordata` with `maxusec = 0`, no timeout carried over
in `tv`, no release deadline, and a usable driver handle or no wish to use the
hardware, `poll` is called with timeout `-1`; `tv` stays clear and `reconnect`
is 0. -/
theorem mywaitfordata_blocks (s : State) (w : WaitEnv) (tv : timeval)
    (htv : timerisset tv = false) (hrel : timerisset w.release_time = false)
    (hhw : s.curr_driver.fd ≠ -1 ∨ use_hw s = false) :
    (mywaitfordata_timeout s w 0 tv).poll_timeout = -1
      ∧ (mywaitfordata_timeout s w 0 tv).tv = tv
      ∧ (mywaitfordata_timeout s w 0 tv).reconnect = false := by
  have hno : ¬ (s.curr_driver.fd = -1 ∧ use_hw s = true) := by
    rintro ⟨h1, h2⟩
    rcases hhw with h | h
    · exact h h1
    · rw [h] at h2; exact absurd h2 (by decide)
  simp [mywaitfordata_timeout, htv, hrel, hno]

/-- Witness of C10: the idle daemon, whose driver handle is open. -/
theorem mywaitfordata_blocks_witness :
    (mywaitfordata_timeout example_idle example_wait 0 timerclear).poll_timeout = -1
      ∧ (mywaitfordata_timeout example_idle example_wait 0 timerclear).tv = timerclear
      ∧ (mywaitfordata_timeout example_idle example_wait 0 timerclear).reconnect = false :=
  mywaitfordata_blocks example_idle example_wait timerclear rfl rfl (Or.inl (by decide))

/-! ## Timeouts and the timer value (C11, C17) -/

/-- C11 (evaluation at the failing input): the driver handle is unusable and the
hardware is wanted, no release deadline is set and `maxusec = 0`.  The first pass
computes `tv` = 1 second and polls for 1000 ms.  The next pass starts with that
`tv` carried over, clears it because the clock reading is larger, sets
`reconnect`, and calls `poll` with timeout 0 although the reconnect retry is still
armed. -/
theorem mywaitfordata_stale_timeout :
    mywaitfordata_timeout example_unplugged example_wait 0 timerclear
        = { tv := { tv_sec := 1, tv_usec := 0 }, reconnect := false, poll_timeout := 1000 }
      ∧ (example_unplugged.curr_driver.fd = -1 ∧ use_hw example_unplugged = true)
      ∧ timerisset example_wait.release_time = false
      ∧ mywaitfordata_timeout example_unplugged example_wait 0 { tv_sec := 1, tv_usec := 0 }
        = { tv := { tv_sec := 0, tv_usec := 0 }, reconnect := true, poll_timeout := 0 } := by
  decide

/-- C17 (evaluation at the failing input): with a queued sum of 40000, a minimum
remaining gap of 1500000 and 300 microseconds elapsed, `schedule_repeat_timer`
passes `tv_sec = 0`, `tv_usec = 1539700` to `setitimer`: the microseconds field
exceeds 999999. -/
theorem schedule_repeat_timer_unnormalised :
    schedule_repeat_timer example_slow example_alarm example_alarm.before_send
      = some (example_slow.emit (.setitimer
          { it_interval := { tv_sec := 0, tv_usec := 0 },
            it_value := { tv_sec := 0, tv_usec := 1539700 } })) := by
  rfl

/-! ## Releasing the hardware (C12) -/

/-- C12: `use_hw` is true exactly when `is_open` holds or `repeat_remote` is
non-null; and an alarm firing on a valid session returns, ends the session on the
interruption path and when the retransmission fails, and whenever it ends the
session it calls the driver's `deinit_func` exactly once if `is_open` is false and
the driver has a `deinit_func`, and not at all otherwise; it never calls it while a
subscriber is present or while the session goes on. -/
theorem dosigalrm_releases_hardware (s : State) (e : AlarmEnv) (rr : Nat) (remote : ir_remote)
    (hrr : s.repeat_remote = some rr) (hrem : s.remote_at rr = some remote)
    (hcode : remote.last_code = s.repeat_code →
      ∃ rc code, s.repeat_code = some rc ∧ s.ncode_at rc = some code) :
    (∀ t : State, use_hw t = true ↔ (t.is_open = true ∨ t.repeat_remote ≠ none))
      ∧ ∃ s' new, dosigalrm s e = some s' ∧ s'.out = s.out ++ new
        ∧ (remote.last_code ≠ s.repeat_code → s'.repeat_remote = none)
        ∧ (e.send_ok = false → s'.repeat_remote = none)
        ∧ (s'.repeat_remote = none →
            new.countP Event.isDeinit
              = if s.is_open = false ∧ s.curr_driver.deinit_func = true then 1 else 0)
        ∧ (s'.repeat_remote ≠ none → new.countP Event.isDeinit = 0)
        ∧ (s.is_open = true → new.countP Event.isDeinit = 0) := by
  refine ⟨fun t => by simp [use_hw], ?_⟩
  by_cases hne : remote.last_code ≠ s.repeat_code
  · refine ⟨_, (if s.repeat_fd ≠ -1 then
          [.send_error s.repeat_fd s.repeat_message "repeating interrupted\n"] else [])
        ++ (if !s.is_open && s.curr_driver.deinit_func then [.deinit_func] else []),
      dosigalrm_interrupt s e rr remote hrr hrem hne, by simp only [List.append_assoc],
      fun _ => rfl, fun _ => rfl, ?_, fun h => absurd rfl h, ?_⟩
    · intro _
      by_cases hfd : s.repeat_fd = -1 <;> cases hio : s.is_open <;>
        cases hdf : s.curr_driver.deinit_func <;> simp [Event.isDeinit, hfd]
    · intro hio
      by_cases hfd : s.repeat_fd = -1 <;> simp [Event.isDeinit, hfd, hio]
  · have hlast : remote.last_code = s.repeat_code := not_not.mp hne
    obtain ⟨rc, code, hrc, hcd⟩ := hcode hlast
    obtain ⟨c, _, _, hdo⟩ := dosigalrm_sends s e rr rc remote code hrr hrc hrem hcd
      (hlast.trans hrc)
    by_cases hgo : e.send_ok = true ∧ 0 < c
    · rw [if_pos hgo] at hdo
      refine ⟨_, _, hdo, rfl, fun h => absurd hlast h, ?_, ?_, ?_, ?_⟩
      · intro h; rw [hgo.1] at h; cases h
      · intro h
        have h2 : s.repeat_remote = none := h
        rw [hrr] at h2
        cases h2
      · intro _; simp [Event.isDeinit]
      · intro _; simp [Event.isDeinit]
    · rw [if_neg hgo] at hdo
      refine ⟨_, [.send_ir_ncode rr rc 1]
          ++ (if s.repeat_fd ≠ -1 then [.send_success s.repeat_fd s.repeat_message] else [])
          ++ (if !s.is_open && s.curr_driver.deinit_func then [.deinit_func] else []),
        hdo, by simp only [List.append_assoc], fun _ => rfl, fun _ => rfl, ?_,
        fun h => absurd rfl h, ?_⟩
      · intro _
        by_cases hfd : s.repeat_fd = -1 <;> cases hio : s.is_open <;>
          cases hdf : s.curr_driver.deinit_func <;> simp [Event.isDeinit, hfd]
      · intro hio
        by_cases hfd : s.repeat_fd = -1 <;> simp [Event.isDeinit, hfd, hio]

/-- Witness of C12: two alarm firings that end the session.  In
`example_interrupted` another button was decoded, no subscriber is present and the
driver has a `deinit_func`: the session ends and `deinit_func` is called once.  In
`example_subscribed` the retransmission fails while a subscriber is present: the
session ends and `deinit_func` is not called. -/
theorem dosigalrm_releases_hardware_witness :
    ((∀ t : State, use_hw t = true ↔ (t.is_open = true ∨ t.repeat_remote ≠ none))
      ∧ ∃ s' new, dosigalrm example_interrupted example_alarm = some s'
        ∧ s'.out = example_interrupted.out ++ new
        ∧ ((example_tv [2, 9] 3 (some 9)).last_code ≠ example_interrupted.repeat_code →
            s'.repeat_remote = none)
        ∧ (example_alarm.send_ok = false → s'.repeat_remote = none)
        ∧ (s'.repeat_remote = none →
            new.countP Event.isDeinit
              = if example_interrupted.is_open = false
                  ∧ example_interrupted.curr_driver.deinit_func = true then 1 else 0)
        ∧ (s'.repeat_remote ≠ none → new.countP Event.isDeinit = 0)
        ∧ (example_interrupted.is_open = true → new.countP Event.isDeinit = 0))
      ∧ (example_tv [2, 9] 3 (some 9)).last_code ≠ example_interrupted.repeat_code
      ∧ (dosigalrm example_interrupted example_alarm).map
          (fun s' => (s'.repeat_remote,
            (s'.out.drop example_interrupted.out.length).countP Event.isDeinit))
        = some (none, 1)
      ∧ ((∀ t : State, use_hw t = true ↔ (t.is_open = true ∨ t.repeat_remote ≠ none))
      ∧ ∃ s' new, dosigalrm example_subscribed example_failed = some s'
        ∧ s'.out = example_subscribed.out ++ new
        ∧ ((example_tv [2] 3 (some 2)).last_code ≠ example_subscribed.repeat_code →
            s'.repeat_remote = none)
        ∧ (example_failed.send_ok = false → s'.repeat_remote = none)
        ∧ (s'.repeat_remote = none →
            new.countP Event.isDeinit
              = if example_subscribed.is_open = false
                  ∧ example_subscribed.curr_driver.deinit_func = true then 1 else 0)
        ∧ (s'.repeat_remote ≠ none → new.countP Event.isDeinit = 0)
        ∧ (example_subscribed.is_open = true → new.countP Event.isDeinit = 0))
      ∧ example_failed.send_ok = false
      ∧ example_subscribed.is_open = true
      ∧ (dosigalrm example_subscribed example_failed).map
          (fun s' => (s'.repeat_remote,
            (s'.out.drop example_subscribed.out.length).countP Event.isDeinit))
        = some (none, 0) :=
  ⟨dosigalrm_releases_hardware example_interrupted example_alarm 1
      (example_tv [2, 9] 3 (some 9)) rfl rfl (fun h => absurd h (by decide)),
    (by decide), (by decide),
    dosigalrm_releases_hardware example_subscribed example_failed 1
      (example_tv [2] 3 (some 2)) rfl rfl (fun _ => ⟨2, example_power, rfl, rfl⟩),
    rfl, rfl, (by decide)⟩

/-! ## Sessions across a reload (C13, C14) -/

/-- C13 (counterexample): the new generation has the profile "TV" but not the
button "POWER" of the active session; after `free_old_remotes` the session is
still bound to the old profile and button (addresses 1 and 2), the requester on
descriptor 7 has been sent nothing, and the retiring generation is still held. -/
theorem free_old_remotes_keeps_removed_button :
    get_ir_remote example_removed example_removed.remotes "TV" = some 3
      ∧ get_code_by_name example_removed 3 "POWER" = none
      ∧ (free_old_remotes example_removed example_quiet).map
          (fun s' => (s'.repeat_remote, s'.repeat_code, s'.repeat_fd, s'.free_remotes, s'.out))
        = some (some 1, some 2, 7, [1], []) := by
  decide

/-- C13 (amended): when the decoder does not use the retiring generation, the two
generations share no profile, the last-decoded reference (if it points into the
retiring generation) has a last button, and the repeat session is bound to a
profile of the retiring generation whose name is absent from the new generation,
or whose button's name is absent from the new profile of that name,
`free_old_remotes` returns with the session as it was (`repeat_remote`,
`repeat_code`, `repeat_fd`, `repeat_message`), with `free_remotes` and the
session's profile still in place, and without any `send_error` or `send_success`. -/
theorem free_old_remotes_keeps_session (s : State) (env : ReloadEnv) (rr : Nat) (old : ir_remote)
    (hdec : s.decoding ≠ head_ptr s.free_remotes)
    (hdisj : ∀ a ∈ s.remotes, a ∉ s.free_remotes)
    (hlast : ∀ lr, s.last_remote = some lr → lr ∈ s.free_remotes →
      ∃ r lc c, s.remote_at lr = some r ∧ r.last_code = some lc ∧ s.ncode_at lc = some c)
    (hrr : s.repeat_remote = some rr) (hin : rr ∈ s.free_remotes)
    (hold : s.remote_at rr = some old)
    (hmiss : get_ir_remote s s.remotes old.name = none
      ∨ ∃ found rc ocode, get_ir_remote s s.remotes old.name = some found
          ∧ s.repeat_code = some rc ∧ s.ncode_at rc = some ocode
          ∧ get_code_by_name s found ocode.name = none) :
    ∃ s' new, free_old_remotes s env = some s'
      ∧ s'.repeat_remote = some rr ∧ s'.repeat_code = s.repeat_code
      ∧ s'.repeat_fd = s.repeat_fd ∧ s'.repeat_message = s.repeat_message
      ∧ s'.free_remotes = s.free_remotes ∧ s'.remote_at rr = some old
      ∧ s'.out = s.out ++ new
      ∧ new.countP Event.isError = 0 ∧ new.countP Event.isSuccess = 0 := by
  unfold free_old_remotes
  rw [if_neg hdec]
  cases env.release_map_remotes with
  | none =>
    obtain ⟨s', h0, h1, h2, h3, h4, h5, h6, h7⟩ :=
      free_unless_referenced_keeps s rr old hdisj hlast hrr hin hold hmiss
    exact ⟨s', [], h0, h1, h2, h3, h4, h5, h6, by simpa using h7, by simp, by simp⟩
  | some m =>
    obtain ⟨evs, ho, he1, he2⟩ := input_message_out env.check_release_event s m.message
      m.remote_name m.button_name 0 1
    simp only [ho]
    obtain ⟨s', h0, h1, h2, h3, h4, h5, h6, h7⟩ :=
      free_unless_referenced_keeps { s with out := s.out ++ evs } rr old hdisj hlast hrr hin
        hold hmiss
    exact ⟨s', evs, h0, h1, h2, h3, h4, h5, h6, h7, he1, he2⟩

/-- Witness of C13 (amended): the reload of `example_removed`. -/
theorem free_old_remotes_keeps_session_witness :
    ∃ s' new, free_old_remotes example_removed example_quiet = some s'
      ∧ s'.repeat_remote = some 1 ∧ s'.repeat_code = example_removed.repeat_code
      ∧ s'.repeat_fd = example_removed.repeat_fd
      ∧ s'.repeat_message = example_removed.repeat_message
      ∧ s'.free_remotes = example_removed.free_remotes
      ∧ s'.remote_at 1 = some (example_tv [2] 3 (some 2))
      ∧ s'.out = example_removed.out ++ new
      ∧ new.countP Event.isError = 0 ∧ new.countP Event.isSuccess = 0 :=
  free_old_remotes_keeps_session example_removed example_quiet 1 (example_tv [2] 3 (some 2))
    (by decide) (by decide) (fun lr h _ => by cases h) rfl (by decide) rfl
    (Or.inr ⟨3, 2, example_power, by decide, rfl, rfl, by decide⟩)

/-- C14 (counterexample): the session is bound to the profile at address 1 of the
retiring generation, whose repeat countdown is 3; after one alarm firing the
generation is still retiring and the countdown of that profile is 2. -/
theorem dosigalrm_decrements_retiring_profile :
    example_removed.free_remotes = [1]
      ∧ example_removed.repeat_remote = some 1
      ∧ (example_removed.remote_at 1).map ir_remote.repeat_countdown = some 3
      ∧ (dosigalrm example_removed example_alarm).map
          (fun s' => (s'.free_remotes, (s'.remote_at 1).map ir_remote.repeat_countdown))
        = some ([1], some 2) := by
  decide

/-- C14 (amended): when the two generations share no profile and the references
into the retiring generation are valid, `free_old_remotes` returns and every profile
outside the current generation is either unchanged or a profile of the retiring
generation freed together with it; and an alarm firing for a session bound to a
profile of the retiring generation returns and changes no other profile, but does
write into the session's profile: it leaves the profile alone only when the last
decoded button differs from the session's button; otherwise the profile becomes the
one `send_ir_ncode` leaves (its transmission state written by the sender) after
being handed the profile with the repeat countdown kept or decremented by one, and
decremented by one when the button has no further frame. -/
theorem retiring_generation_writes (s : State) (env : ReloadEnv) (e : AlarmEnv)
    (hdisj : ∀ a ∈ s.remotes, a ∉ s.free_remotes)
    (hlast : ∀ lr, s.last_remote = some lr → lr ∈ s.free_remotes →
      ∃ r lc c, s.remote_at lr = some r ∧ r.last_code = some lc ∧ s.ncode_at lc = some c)
    (hrep : ∀ rr, s.repeat_remote = some rr → rr ∈ s.free_remotes →
      ∃ r rc c, s.remote_at rr = some r ∧ s.repeat_code = some rc ∧ s.ncode_at rc = some c) :
    (∃ s', free_old_remotes s env = some s'
        ∧ ∀ a, a ∉ s.remotes →
            s'.remote_at a = s.remote_at a
            ∨ (a ∈ s.free_remotes ∧ s'.free_remotes = [] ∧ s'.remote_at a = none))
      ∧ (∀ rr remote, s.repeat_remote = some rr → rr ∈ s.free_remotes →
          s.remote_at rr = some remote →
          ∃ s' r', dosigalrm s e = some s'
            ∧ (∀ a, a ≠ rr → s'.remote_at a = s.remote_at a)
            ∧ s'.remote_at rr = some r'
            ∧ (remote.last_code ≠ s.repeat_code → r' = remote)
            ∧ (remote.last_code = s.repeat_code →
                ∃ c, (c = remote.repeat_countdown ∨ c = remote.repeat_countdown - 1)
                  ∧ r' = sent_profile e { remote with repeat_countdown := c }
                  ∧ ∀ rc code, s.repeat_code = some rc → s.ncode_at rc = some code →
                      code.next = none → c = remote.repeat_countdown - 1)) := by
  constructor
  · unfold free_old_remotes
    split
    · exact ⟨s, rfl, fun _ _ => Or.inl rfl⟩
    · cases env.release_map_remotes with
      | none => exact free_unless_referenced_frame s hdisj hlast hrep
      | some m =>
        obtain ⟨o, ho⟩ := input_message_frame env.check_release_event s m.message m.remote_name
          m.button_name 0 1
        simp only [ho]
        exact free_unless_referenced_frame { s with out := o } hdisj hlast hrep
  · intro rr remote hrr hin hrem
    obtain ⟨r0, rc, code, hr0, hrc, hcode⟩ := hrep rr hrr hin
    by_cases hne : remote.last_code ≠ s.repeat_code
    · exact ⟨_, remote, dosigalrm_interrupt s e rr remote hrr hrem hne, fun _ _ => rfl, hrem,
        fun _ => rfl, fun h => absurd h hne⟩
    · have hl : remote.last_code = some rc := (not_not.mp hne).trans hrc
      obtain ⟨c, hc, hcn, hdo⟩ := dosigalrm_sends s e rr rc remote code hrr hrc hrem hcode hl
      have hnext : ∀ rc2 code2, s.repeat_code = some rc2 → s.ncode_at rc2 = some code2 →
          code2.next = none → c = remote.repeat_countdown - 1 := by
        intro rc2 code2 h1 h2 h3
        rw [hrc] at h1
        obtain rfl : rc = rc2 := Option.some.inj h1
        rw [hcode] at h2
        obtain rfl : code = code2 := Option.some.inj h2
        exact hcn h3
      by_cases hgo : e.send_ok = true ∧ 0 < c
      · rw [if_pos hgo] at hdo
        refine ⟨_, sent_profile e { remote with repeat_countdown := c }, hdo, ?_, ?_,
          fun h => absurd h hne, fun _ => ⟨c, hc, rfl, hnext⟩⟩
        · intro a ha
          exact Function.update_noteq ha _ _
        · exact Function.update_same _ _ _
      · rw [if_neg hgo] at hdo
        refine ⟨_, sent_profile e { remote with repeat_countdown := c }, hdo, ?_, ?_,
          fun h => absurd h hne, fun _ => ⟨c, hc, rfl, hnext⟩⟩
        · intro a ha
          exact Function.update_noteq ha _ _
        · exact Function.update_same _ _ _

/-- Witness of C14 (amended): the reload of `example_removed`. -/
theorem retiring_generation_writes_witness :
    (∃ s', free_old_remotes example_removed example_quiet = some s'
        ∧ ∀ a, a ∉ example_removed.remotes →
            s'.remote_at a = example_removed.remote_at a
            ∨ (a ∈ example_removed.free_remotes ∧ s'.free_remotes = []
                ∧ s'.remote_at a = none))
      ∧ (∀ rr remote, example_removed.repeat_remote = some rr →
          rr ∈ example_removed.free_remotes →
          example_removed.remote_at rr = some remote →
          ∃ s' r', dosigalrm example_removed example_alarm = some s'
            ∧ (∀ a, a ≠ rr → s'.remote_at a = example_removed.remote_at a)
            ∧ s'.remote_at rr = some r'
            ∧ (remote.last_code ≠ example_removed.repeat_code → r' = remote)
            ∧ (remote.last_code = example_removed.repeat_code →
                ∃ c, (c = remote.repeat_countdown ∨ c = remote.repeat_countdown - 1)
                  ∧ r' = sent_profile example_alarm { remote with repeat_countdown := c }
                  ∧ ∀ rc code, example_removed.repeat_code = some rc →
                      example_removed.ncode_at rc = some code →
                      code.next = none → c = remote.repeat_countdown - 1)) :=
  retiring_generation_writes example_removed example_quiet example_alarm (by decide)
    (fun lr h _ => by cases h)
    (fun rr h _ => by
      obtain rfl : 1 = rr := Option.some.inj h
      exact ⟨_, 2, example_power, rfl, rfl, rfl⟩)

/-! ## Signals and refused reloads (C15, C16) -/

/-- C15 (counterexample): the handler that `main` installs for `SIGUSR1` is
`dosigterm`; delivered during the session of `example_session` it does not touch
`term` but clears `repeat_remote`, frees the current profiles, shuts down and
closes the socket, closes the pidfile and the driver, and exits. -/
theorem deliver_sigusr1_shuts_down :
    main_sigaction .SIGUSR1 = .dosigterm
      ∧ example_session.repeat_remote = some 1
      ∧ (deliver example_session .SIGUSR1).repeat_remote = none
      ∧ (example_session.remote_at 1).isSome = true
      ∧ (deliver example_session .SIGUSR1).remote_at 1 = none
      ∧ (deliver example_session .SIGUSR1).term = example_session.term
      ∧ (deliver example_session .SIGUSR1).out
          = [.signal 14 true, .free_config [1], .shutdown 5 2, .close 5, .pidfile_close,
              .close_func, .signal 10 false, .exit 0] := by
  decide

/-- C15 (amended): each handler installed for `SIGTERM`, `SIGINT`, `SIGALRM` and
`SIGHUP` leaves every variable other than `term`, `termsig`, `hup` and `alrm`, both
heaps and the trace of outside calls unchanged: `sigterm` sets `term` and records
the signal number in `termsig` unless `term` is already set, `sigalrm` sets `alrm`,
`sighup` sets `hup`. -/
theorem deliver_records_flag (s : State) (sig : Signal) (h : sig ≠ .SIGUSR1) :
    deliver s sig
        = { s with
            term := (deliver s sig).term, termsig := (deliver s sig).termsig,
            hup := (deliver s sig).hup, alrm := (deliver s sig).alrm }
      ∧ (sig = .SIGTERM ∨ sig = .SIGINT →
          deliver s sig = if s.term ≠ 0 then s else { s with term := 1, termsig := sig.num })
      ∧ (sig = .SIGALRM → deliver s sig = { s with alrm := 1 })
      ∧ (sig = .SIGHUP → deliver s sig = { s with hup := 1 }) := by
  cases sig
  case SIGUSR1 => exact absurd rfl h
  case SIGTERM =>
    by_cases ht : s.term ≠ 0
    · simp only [deliver, main_sigaction, sigterm, if_pos ht]
      simp
    · simp only [deliver, main_sigaction, sigterm, if_neg ht]
      simp
  case SIGINT =>
    by_cases ht : s.term ≠ 0
    · simp only [deliver, main_sigaction, sigterm, if_pos ht]
      simp
    · simp only [deliver, main_sigaction, sigterm, if_neg ht]
      simp
  case SIGALRM => simp [deliver, main_sigaction, sigalrm]
  case SIGHUP => simp [deliver, main_sigaction, sighup]

/-- Witness of C15 (amended): `SIGHUP` during the session of `example_session`. -/
theorem deliver_records_flag_witness :
    deliver example_session .SIGHUP
        = { example_session with
            term := (deliver example_session .SIGHUP).term,
            termsig := (deliver example_session .SIGHUP).termsig,
            hup := (deliver example_session .SIGHUP).hup,
            alrm := (deliver example_session .SIGHUP).alrm }
      ∧ (Signal.SIGHUP = .SIGTERM ∨ Signal.SIGHUP = .SIGINT →
          deliver example_session .SIGHUP
            = if example_session.term ≠ 0 then example_session
              else { example_session with term := 1, termsig := Signal.SIGHUP.num })
      ∧ (Signal.SIGHUP = .SIGALRM →
          deliver example_session .SIGHUP = { example_session with alrm := 1 })
      ∧ (Signal.SIGHUP = .SIGHUP →
          deliver example_session .SIGHUP = { example_session with hup := 1 }) :=
  deliver_records_flag example_session .SIGHUP (by decide)

/-- C16: while `free_remotes` is non-null, `config` returns the state it was
given, whatever the config source holds: the current generation, the retiring
generation, the timing envelope, `configfile` and the trace are unchanged. -/
theorem config_refuses_while_retiring (s : State) (env : ConfigEnv) (h : s.free_remotes ≠ []) :
    config s env = s
      ∧ (config s env).remotes = s.remotes
      ∧ (config s env).free_remotes = s.free_remotes
      ∧ (config s env).hw = s.hw
      ∧ (config s env).configfile = s.configfile
      ∧ (config s env).out = s.out := by
  have hc : config s env = s := by
    unfold config
    rw [if_pos h]
  rw [hc]
  exact ⟨rfl, rfl, rfl, rfl, rfl, rfl⟩

/-- Witness of C16: a reload requested while the generation of `example_reload` is
still retiring, on a source that would parse. -/
theorem config_refuses_while_retiring_witness :
    config example_reload example_parsable = example_reload
      ∧ (config example_reload example_parsable).remotes = example_reload.remotes
      ∧ (config example_reload example_parsable).free_remotes = example_reload.free_remotes
      ∧ (config example_reload example_parsable).hw = example_reload.hw
      ∧ (config example_reload example_parsable).configfile = example_reload.configfile
      ∧ (config example_reload example_parsable).out = example_reload.out :=
  config_refuses_while_retiring example_reload example_parsable (by decide)

end Lircd
